import Mathlib

/-!
# Marvell vendor-specific plugin (VSP) daemon

A shallow embedding of `internal/daemon/vendor-specific-plugins/marvell/main.go`.

* Go `string` values are Lean `String`s; a Go `int`/`int32` is an `Int`.
* A Go `error` is a `GoError`; a nil error is `none : Option GoError`.
* Calls that leave the file (netlink, `net`, `os/exec`, the `mrvl-utils` helpers and the
  dataplane driver) are fields of a `Platform`.  Kernel-facing calls thread an abstract
  kernel state `K`, and so do the VF lookups `Mapped_VF` and `GetNameByPCI`, which the
  daemon makes again on every call; the lookups by device identifier and `PrintPortInfo`
  are functions of their arguments.
* Every such call is appended, with its result, to the `trace` of the `World`, so that
  "which calls were issued, in which order, with which arguments" is a statement about
  a list.
* A Go map is an association list with unique keys; its iteration order is the order of
  the list (Go leaves the order unspecified, so every order is a possible list).
-/

namespace MarvellVsp

/-! ## Constants (main.go, lines 31-46) -/

def SysBusPci : String := "/sys/bus/pci/devices"
def VendorID : String := "177d"
def DPUdeviceID : String := "a0f7"
def HostDeviceID : String := "b900"
def DefaultPort : Int := 8085
def Version : String := "0.0.1"
def PortType : String := "veth"
def NoOfPortPairs : Int := 2
def IPv6AddrDpu : String := "fe80::1"
def IPv6AddrHost : String := "fe80::2"
def DataPlaneType : String := "debug"
def NumPFs : Int := 1
def PFID : Int := 0
def isDPDK : Bool := false

/-! ## Go values -/

/-- Go `error` values: one made by `errors.New`, `fmt.Errorf` or a library, or the
`joinError` that `errors.Join` builds around its non-nil arguments. -/
inductive GoError where
  | new (msg : String)
  | join1 (e : GoError)
  | join2 (a b : GoError)
deriving DecidableEq, Repr

/-- The method `Error()`: a `joinError` prints its members separated by newlines. -/
def GoError.Error : GoError → String
  | .new msg => msg
  | .join1 e => e.Error
  | .join2 a b => a.Error ++ "\n" ++ b.Error

/-- The call `errors.Join(a, b)`: nil when both are nil, else a `joinError` of the non-nil ones. -/
def errorsJoin : Option GoError → Option GoError → Option GoError
  | none, none => none
  | some a, none => some (.join1 a)
  | none, some b => some (.join1 b)
  | some a, some b => some (.join2 a b)

/-- A Go result pair `(value, error)` of which exactly one side is meaningful. -/
inductive Res (α : Type) where
  | ok (v : α)
  | err (e : GoError)
deriving DecidableEq, Repr

/-- The result of a Go function that returns `error`, or panics instead of returning. -/
inductive Outcome where
  | nil
  | err (e : GoError)
  | panic (msg : String)
deriving DecidableEq, Repr

/-- The fields of `netlink.LinkAttrs` that the daemon reads. `HardwareAddr` is the text
`HardwareAddr.String()`, and `FlagUp` says whether `Flags&net.FlagUp` is non-zero. -/
structure Link where
  Index : Int
  Name : String
  HardwareAddr : String
  FlagUp : Bool
deriving DecidableEq, Repr

/-- A `netlink.Neigh`, reduced to `IP.String()`. -/
structure Neigh where
  IP : String
deriving DecidableEq, Repr

/-- A `net.Addr`: either a `*net.IPNet` (with whether `IP.To4()` is non-nil, and
`IP.String()`), or a value of another type. -/
inductive Addr where
  | IPNet (isIPv4 : Bool) (text : String)
  | other
deriving DecidableEq, Repr

/-- The message `pb.IpPort`. -/
structure IpPort where
  Ip : String := ""
  Port : Int := 0
deriving DecidableEq, Repr

/-- The message `pb.Device`. -/
structure Device where
  ID : String
  Health : String
deriving DecidableEq, Repr

/-- The message `opi.BridgePort`. The daemon copies `Spec` without reading it, so its type
is a parameter; `Status` is nil or the empty `BridgePortStatus`, the only values the daemon
builds. -/
structure BridgePort (σ : Type) where
  Name : String
  Spec : σ
  Status : Option Unit

/-! ## Go maps as association lists -/

/-- The read `m[k]`, with `none` for an absent key. -/
def mapGet {β : Type} : List (String × β) → String → Option β
  | [], _ => none
  | (k, v) :: rest, key => if k = key then some v else mapGet rest key

/-- The assignment `m[k] = v`. -/
def mapSet {β : Type} : List (String × β) → String → β → List (String × β)
  | [], key, val => [(key, val)]
  | (k, v) :: rest, key, val =>
    if k = key then (key, val) :: rest else (k, v) :: mapSet rest key val

/-! ## The outside world -/

/-- The two places that send on the channel `done`: the goroutine of `Serve` (lines 575 and
577) and `Stop` (line 601). -/
inductive Sender where
  | goroutine
  | stop
deriving DecidableEq, Repr

/-- One call that left the daemon, with what it returned; or one step of the daemon's own
shutdown: `GrpcServerStop` is a call `vsp.grpcServer.Stop()`, and `Done s err` is the moment
the send of `err` by `s` on the channel `done` is received by `Serve` (line 585). -/
inductive Event where
  | LinkAdd (name peer : String) (r : Option GoError)
  | LinkByName (name : String) (r : Res Link)
  | LinkSetUp (link : Link) (r : Option GoError)
  | LinkDel (link : Link) (r : Option GoError)
  | NeighList (index family : Int) (r : Res (List Neigh))
  | InterfaceByName (name : String) (r : Option GoError)
  | InterfaceAddrs (name : String) (r : Res (List Addr))
  | Run (argv : List String) (r : Option GoError)
  | Mapped_VF (numPFs pfid vfid : Int) (r : String × Option GoError)
  | GetNameByPCI (pci : String) (r : String × Option GoError)
  | GetPCIByDeviceID (deviceID : String) (r : String × Option GoError)
  | GetNameByDeviceID (deviceID : String) (r : String × Option GoError)
  | PrintPortInfo (name : String) (r : Option GoError)
  | AddPortToDataPlane (bridgeName portName vfPCIAddres : String) (dpdk : Bool)
      (r : Option GoError)
  | DeletePortFromDataPlane (bridgeName portName : String) (r : Option GoError)
  | InitDataPlane (bridgeName : String) (r : Option GoError)
  | DeleteDataplane (bridgeName : String) (r : Option GoError)
  | GrpcServerStop
  | Done (s : Sender) (err : Option GoError)
deriving DecidableEq, Repr

/-- Everything main.go calls but does not define. `K` is the state of the kernel and of
the dataplane backend. `Run` stands for `exec.Command(argv...)` followed by `Run()` or
`CombinedOutput()`, whose output the daemon never reads. -/
structure Platform (K : Type) where
  LinkAdd : K → String → String → Option GoError × K
  LinkByName : K → String → Res Link × K
  LinkSetUp : K → Link → Option GoError × K
  LinkDel : K → Link → Option GoError × K
  NeighList : K → Int → Int → Res (List Neigh) × K
  InterfaceByName : K → String → Option GoError × K
  InterfaceAddrs : K → String → Res (List Addr) × K
  Run : K → List String → Option GoError × K
  Mapped_VF : K → Int → Int → Int → (String × Option GoError) × K
  GetNameByPCI : K → String → (String × Option GoError) × K
  GetPCIByDeviceID : String → String × Option GoError
  GetNameByDeviceID : String → String × Option GoError
  PrintPortInfo : String → Option GoError
  AddPortToDataPlane : K → String → String → String → Bool → Option GoError × K
  DeletePortFromDataPlane : K → String → String → Option GoError × K
  InitDataPlane : K → String → Option GoError × K
  DeleteDataplane : K → String → Option GoError × K

/-- The kernel state together with the calls issued so far, oldest first. -/
structure World (K : Type) where
  kernel : K
  trace : List Event
deriving DecidableEq

/-- Perform a call that acts on the kernel, and record it. -/
def World.step {K α : Type} (w : World K) (res : α × K) (ev : α → Event) : α × World K :=
  (res.1, { kernel := res.2, trace := w.trace ++ [ev res.1] })

/-- Record a lookup that does not act on the kernel. -/
def World.note {K α : Type} (w : World K) (res : α) (ev : α → Event) : α × World K :=
  (res, { kernel := w.kernel, trace := w.trace ++ [ev res] })

/-- The calls issued between an earlier world and a later one. -/
def newEvents {K : Type} (before after : World K) : List Event :=
  after.trace.drop before.trace.length

/-! ## The server (main.go, lines 56-80) -/

structure mrvlDeviceInfo where
  nfInterfaceName : String
  dpInterfaceName : String
  dpMAC : String
  health : String
deriving DecidableEq, Repr

/-- The data fields of `mrvlVspServer`. `deviceStore = none` is the nil map. The dataplane
driver `mrvlDP` is the dataplane part of the `Platform`. -/
structure mrvlVspServer where
  version : String := ""
  isDPUMode : Bool := false
  deviceStore : Option (List (String × mrvlDeviceInfo)) := none
  portType : String := ""
  noOfPortPairs : Int := 0
  bridgeName : String := ""
deriving DecidableEq, Repr

/-- The constructor (lines 611-637): the registry is `make(map[string]mrvlDeviceInfo)`,
every other data field has its zero value. -/
def NewMarvellVspServer : mrvlVspServer :=
  { deviceStore := some [] }

/-! ## Virtual-link pairs (lines 82-181) -/

/-- The method `createVethPair` (lines 83-119). Writing to a nil registry panics. -/
def createVethPair {K : Type} (pl : Platform K) (index : Int) (vsp : mrvlVspServer)
    (w : World K) : Outcome × mrvlVspServer × World K :=
  let nfInterfaceName := "nf_interface" ++ toString index
  let dpInterfaceName := "dp_interface" ++ toString index
  match w.step (pl.LinkAdd w.kernel nfInterfaceName dpInterfaceName)
      (Event.LinkAdd nfInterfaceName dpInterfaceName) with
  | (some err, w1) => (.err err, vsp, w1)
  | (none, w1) =>
  match w1.step (pl.LinkByName w1.kernel nfInterfaceName) (Event.LinkByName nfInterfaceName) with
  | (.err err, w2) => (.err err, vsp, w2)
  | (.ok nfLink, w2) =>
  match w2.step (pl.LinkSetUp w2.kernel nfLink) (Event.LinkSetUp nfLink) with
  | (some err, w3) => (.err err, vsp, w3)
  | (none, w3) =>
  match w3.step (pl.LinkByName w3.kernel dpInterfaceName) (Event.LinkByName dpInterfaceName) with
  | (.err err, w4) => (.err err, vsp, w4)
  | (.ok peerLink, w4) =>
  match w4.step (pl.LinkSetUp w4.kernel peerLink) (Event.LinkSetUp peerLink) with
  | (some err, w5) => (.err err, vsp, w5)
  | (none, w5) =>
  match vsp.deviceStore with
  | none => (.panic "assignment to entry in nil map", vsp, w5)
  | some store =>
    (.nil,
     { vsp with deviceStore := some (mapSet store nfLink.HardwareAddr
        { nfInterfaceName := nfInterfaceName
          dpInterfaceName := dpInterfaceName
          dpMAC := peerLink.HardwareAddr
          health := "Healthy" }) },
     w5)

/-- The method `createHwLBK` (lines 121-125). -/
def createHwLBK : Option GoError :=
  some (.new "currently only veth pairs are supported")

/-- The `range deviceStore` loop of `CleanVethPairs` (lines 133-146), carrying `errResult`. -/
def cleanLoop {K : Type} (pl : Platform K) :
    List (String × mrvlDeviceInfo) → Option GoError → World K → Option GoError × World K
  | [], errResult, w => (errResult, w)
  | (_, info) :: rest, errResult, w =>
    match w.step (pl.LinkByName w.kernel info.nfInterfaceName)
        (Event.LinkByName info.nfInterfaceName) with
    | (.err err, w1) => cleanLoop pl rest (errorsJoin errResult (some err)) w1
    | (.ok nfLink, w1) =>
      match w1.step (pl.LinkDel w1.kernel nfLink) (Event.LinkDel nfLink) with
      | (some err, w2) => cleanLoop pl rest (errorsJoin errResult (some err)) w2
      | (none, w2) => cleanLoop pl rest errResult w2

/-- The method `CleanVethPairs` (lines 128-149). -/
def CleanVethPairs {K : Type} (pl : Platform K) (vsp : mrvlVspServer) (w : World K) :
    Option GoError × mrvlVspServer × World K :=
  match vsp.deviceStore with
  | some deviceStore =>
    let r := cleanLoop pl deviceStore none w
    (r.1, { vsp with deviceStore := none }, r.2)
  | none => (none, vsp, w)

/-- The loop `for i := 0; i < vsp.noOfPortPairs; i++` of `ConfigureNetworkInterface`
(lines 160-167), entered at index `i` with `remaining` iterations to go. -/
def createVethPairs {K : Type} (pl : Platform K) :
    Nat → Nat → mrvlVspServer → World K → Outcome × mrvlVspServer × World K
  | 0, _, vsp, w => (.nil, vsp, w)
  | remaining + 1, i, vsp, w =>
    match createVethPair pl (i : Int) vsp w with
    | (.nil, vsp1, w1) => createVethPairs pl remaining (i + 1) vsp1 w1
    | (.err err, vsp1, w1) =>
      let r := CleanVethPairs pl vsp1 w1
      (.err err, r.2.1, r.2.2)
    | (.panic msg, vsp1, w1) => (.panic msg, vsp1, w1)

/-- The body of `ConfigureNetworkInterface` (lines 152-181) after its two assignments, for
the port type and pair count assigned. -/
def ConfigureNetworkInterfaceWith {K : Type} (pl : Platform K) (portType : String)
    (noOfPortPairs : Int) (vsp : mrvlVspServer) (w : World K) :
    Outcome × mrvlVspServer × World K :=
  let vsp0 := { vsp with portType := portType, noOfPortPairs := noOfPortPairs }
  if vsp0.portType = "veth" then
    createVethPairs pl vsp0.noOfPortPairs.toNat 0 vsp0 w
  else if vsp0.portType = "hwlbk" then
    match createHwLBK with
    | some err => (.err err, vsp0, w)
    | none => (.nil, vsp0, w)
  else
    (.err (.new "invalid Port Type"), vsp0, w)

/-- The method `ConfigureNetworkInterface` (lines 152-181). -/
def ConfigureNetworkInterface {K : Type} (pl : Platform K) (vsp : mrvlVspServer)
    (w : World K) : Outcome × mrvlVspServer × World K :=
  ConfigureNetworkInterfaceWith pl PortType NoOfPortPairs vsp w

/-! ## Devices (lines 183-201, 344-362) -/

/-- The method `GetDeviceHealth` (lines 184-201). -/
def GetDeviceHealth {K : Type} (pl : Platform K) (vsp : mrvlVspServer)
    (nfInterfaceName : String) (w : World K) : String × World K :=
  if vsp.portType = "veth" then
    match w.step (pl.LinkByName w.kernel nfInterfaceName) (Event.LinkByName nfInterfaceName) with
    | (.err _, w1) => ("Unhealthy", w1)
    | (.ok nfLink, w1) => if nfLink.FlagUp = false then ("Unhealthy", w1) else ("Healthy", w1)
  else if vsp.portType = "hwlbk" then
    ("Healthy", w)
  else
    ("Unhealthy", w)

/-- The `range vsp.deviceStore` loop of `GetDevices` (lines 352-358), carrying `devices`. -/
def devicesLoop {K : Type} (pl : Platform K) (vsp : mrvlVspServer) :
    List (String × mrvlDeviceInfo) → List (String × Device) → World K →
      List (String × Device) × World K
  | [], devices, w => (devices, w)
  | (_, info) :: rest, devices, w =>
    let h := GetDeviceHealth pl vsp info.nfInterfaceName w
    devicesLoop pl vsp rest
      (mapSet devices info.nfInterfaceName { ID := info.nfInterfaceName, Health := h.1 }) h.2

/-- The method `GetDevices` (lines 346-362); the value is the `Devices` map of the response. -/
def GetDevices {K : Type} (pl : Platform K) (vsp : mrvlVspServer) (w : World K) :
    Res (List (String × Device)) × World K :=
  match vsp.deviceStore with
  | none => (.err (.new "device Store is empty"), w)
  | some store =>
    let r := devicesLoop pl vsp store [] w
    (.ok r.1, r.2)

/-! ## Resolving a bridge-port name to a VF (lines 234-271) -/

/-- The class `\d` of Go regular expressions: the ASCII digits. -/
def isDigit (c : Char) : Bool := c.isDigit

/-- Match `host(\d+)-(\d+)` at the very start of the text, returning the two groups. Both
`\d+` are greedy; the first can give nothing back since the character after it must be
a hyphen. -/
def matchHere (cs : List Char) : Option (List Char × List Char) :=
  match cs with
  | 'h' :: 'o' :: 's' :: 't' :: rest =>
    let d1 := rest.takeWhile isDigit
    if d1 = [] then none else
    match rest.dropWhile isDigit with
    | '-' :: rest2 =>
      let d2 := rest2.takeWhile isDigit
      if d2 = [] then none else some (d1, d2)
    | _ => none
  | _ => none

/-- The leftmost match of `host(\d+)-(\d+)` anywhere in the text (the expression carries no
anchors). -/
def findMatch : List Char → Option (List Char × List Char)
  | [] => none
  | c :: cs =>
    match matchHere (c :: cs) with
    | some m => some m
    | none => findMatch cs

/-- The call `regexp.MustCompile("host(\\d+)-(\\d+)").FindStringSubmatch(s)`: nil, or the
whole match followed by the two groups. -/
def FindStringSubmatch (s : String) : Option (List String) :=
  match findMatch s.toList with
  | none => none
  | some (d1, d2) =>
    some [String.mk ("host".toList ++ d1 ++ ['-'] ++ d2), String.mk d1, String.mk d2]

/-- The decimal value of a run of digits. -/
def digitsValue (ds : List Char) : Nat :=
  ds.foldl (fun acc c => acc * 10 + (c.toNat - 48)) 0

/-- The function `strconv.Atoi` for a 64-bit `int`: an optional sign and then decimal digits,
with a range error outside `[-2^63, 2^63 - 1]`. -/
def Atoi (s : String) : Res Int :=
  let signed : Bool := s.toList.head? = some '-' ∨ s.toList.head? = some '+'
  let neg : Bool := s.toList.head? = some '-'
  let ds : List Char := if signed = true then s.toList.tail else s.toList
  if ds = [] ∨ ds.all isDigit = false then
    .err (.new ("strconv.Atoi: parsing \"" ++ s ++ "\": invalid syntax"))
  else if neg = true then
    if digitsValue ds ≤ 2 ^ 63 then .ok (-(digitsValue ds : Int))
    else .err (.new ("strconv.Atoi: parsing \"" ++ s ++ "\": value out of range"))
  else
    if digitsValue ds < 2 ^ 63 then .ok (digitsValue ds : Int)
    else .err (.new ("strconv.Atoi: parsing \"" ++ s ++ "\": value out of range"))

/-- The method `getVFDetails` (lines 235-271); the value is `(vfName, vfPciAddress)`. Both
`pfid` and `vfId` are read from `matches[1]`, as in the source (`submatches` is the
source's `matches`). -/
def getVFDetails {K : Type} (pl : Platform K) (BridgePortName : String) (w : World K) :
    Res (String × String) × World K :=
  match FindStringSubmatch BridgePortName with
  | none => (.err (.new "no VFId Match Found"), w)
  | some submatches =>
  match Atoi (submatches.getD 1 "") with
  | .err err => (.err err, w)
  | .ok pfid =>
  match Atoi (submatches.getD 1 "") with
  | .err err => (.err err, w)
  | .ok vfId =>
  match w.step (pl.Mapped_VF w.kernel NumPFs PFID vfId) (Event.Mapped_VF NumPFs PFID vfId) with
  | ((_, some err), w1) => (.err err, w1)
  | ((vfPciAddress, none), w1) =>
  if vfPciAddress = "" then (.err (.new "mapped VF not found"), w1)
  else if isDPDK = true then
    (.ok ("vf" ++ toString pfid ++ "-" ++ toString vfId, vfPciAddress), w1)
  else
    match w1.step (pl.GetNameByPCI w1.kernel vfPciAddress)
        (Event.GetNameByPCI vfPciAddress) with
    | ((_, some err), w2) => (.err err, w2)
    | ((vfName, none), w2) => (.ok (vfName, vfPciAddress), w2)

/-! ## Bridge ports (lines 273-326) -/

/-- The method `CreateBridgePort` (lines 275-303), given `in.BridgePort`. With `isDPDK`
false the port information printed is that of `vfName`; a failure to print is only logged. -/
def CreateBridgePort {K σ : Type} (pl : Platform K) (vsp : mrvlVspServer)
    (inBridgePort : BridgePort σ) (w : World K) : Res (BridgePort σ) × World K :=
  let portName := inBridgePort.Name
  match getVFDetails pl portName w with
  | (.err err, w1) => (.err err, w1)
  | (.ok (vfName, vfPCIAddress), w1) =>
  match w1.step (pl.AddPortToDataPlane w1.kernel vsp.bridgeName vfName vfPCIAddress isDPDK)
      (Event.AddPortToDataPlane vsp.bridgeName vfName vfPCIAddress isDPDK) with
  | (some err, w2) => (.err err, w2)
  | (none, w2) =>
    let w3 := (w2.note (pl.PrintPortInfo vfName) (Event.PrintPortInfo vfName)).2
    (.ok { Name := "bridge_port/" ++ portName, Spec := inBridgePort.Spec, Status := some () }, w3)

/-- The method `DeleteBridgePort` (lines 307-326), given `in.Name`; the value is the empty
message. -/
def DeleteBridgePort {K : Type} (pl : Platform K) (vsp : mrvlVspServer) (inName : String)
    (w : World K) : Res Unit × World K :=
  let portName := inName
  match getVFDetails pl portName w with
  | (.err err, w1) => (.err err, w1)
  | (.ok (vfName, _), w1) =>
  match w1.step (pl.DeletePortFromDataPlane w1.kernel vsp.bridgeName vfName)
      (Event.DeletePortFromDataPlane vsp.bridgeName vfName) with
  | (some err, w2) => (.err err, w2)
  | (none, w2) =>
    let w3 := (w2.note (pl.PrintPortInfo vfName) (Event.PrintPortInfo vfName)).2
    (.ok (), w3)

/-! ## Virtual-function count (lines 364-396) -/

/-- The shell command line that writes `count` to the `sriov_numvfs` file of a device. -/
def sriovWrite (count : String) (pciAddress : String) : List String :=
  ["sh", "-c", "echo " ++ count ++ " > /sys/bus/pci/devices/" ++ pciAddress ++ "/sriov_numvfs"]

/-- The method `SetNumVfs` (lines 365-396), given `in.VfCnt`; the value is the `VfCnt` of the
response. -/
def SetNumVfs {K : Type} (pl : Platform K) (vsp : mrvlVspServer) (inVfCnt : Int)
    (w : World K) : Res Int × World K :=
  if vsp.isDPUMode = true then (.err (.new "SetNumVfs is not supported in DPU Mode"), w) else
  match w.note (pl.GetPCIByDeviceID HostDeviceID) (Event.GetPCIByDeviceID HostDeviceID) with
  | ((pciAddress, err), w1) =>
  if pciAddress = "" ∨ err ≠ none then (.err (.new "PCI Address not found"), w1) else
  let vfcnt := inVfCnt
  if vfcnt < 0 then (.err (.new "invalid VF Count"), w1) else
  match w1.step (pl.Run w1.kernel (sriovWrite "0" pciAddress))
      (Event.Run (sriovWrite "0" pciAddress)) with
  | (some err, w2) =>
    (.err (.new ("failed to reset sriov_numvfs to 0: " ++ err.Error)), w2)
  | (none, w2) =>
  match w2.step (pl.Run w2.kernel (sriovWrite (toString vfcnt) pciAddress))
      (Event.Run (sriovWrite (toString vfcnt) pciAddress)) with
  | (some err, w3) => (.err err, w3)
  | (none, w3) => (.ok vfcnt, w3)

/-! ## Communication channel (lines 398-544) -/

/-- Run one external command and record it. -/
def execRun {K : Type} (pl : Platform K) (argv : List String) (w : World K) :
    Option GoError × World K :=
  w.step (pl.Run w.kernel argv) (Event.Run argv)

/-- The function `enableIPV6LinkLocal` (lines 490-518). The results of `nmcli`, of the
`addrgenmode` and `down` commands and of `ping6` are dropped. -/
def enableIPV6LinkLocal {K : Type} (pl : Platform K) (interfaceName ipv6Addr : String)
    (w : World K) : Option GoError × World K :=
  let w1 := (execRun pl ["nsenter", "-t", "1", "-m", "-u", "-n", "-i", "--", "nmcli", "device",
    "set", interfaceName, "managed", "no"] w).2
  let w2 := (execRun pl ["ip", "link", "set", interfaceName, "addrgenmode", "eui64"] w1).2
  let w3 := (execRun pl ["ip", "link", "set", interfaceName, "down"] w2).2
  match execRun pl ["ip", "link", "set", interfaceName, "up"] w3 with
  | (some err, w4) =>
    (some (.new ("Error setting link " ++ interfaceName ++ " up: " ++ err.Error)), w4)
  | (none, w4) =>
  match execRun pl ["ip", "addr", "replace", ipv6Addr ++ "/64", "dev", interfaceName] w4 with
  | (some err, w5) =>
    (some (.new ("Error configuring IPv6 address " ++ ipv6Addr ++ "/64 on link "
      ++ interfaceName ++ ": " ++ err.Error)), w5)
  | (none, w5) =>
    let w6 := (execRun pl ["ping6", "-c", "2", "-I", interfaceName, "ff02::1"] w5).2
    (none, w6)

/-- The `range addrs` loop of `dpuIpPort` (lines 426-430), carrying `IPv6Addres`. -/
def addrsLoop : List Addr → String → String
  | [], IPv6Addres => IPv6Addres
  | .IPNet isIPv4 text :: rest, IPv6Addres =>
    if isIPv4 = false then addrsLoop rest text else addrsLoop rest IPv6Addres
  | .other :: rest, IPv6Addres => addrsLoop rest IPv6Addres

/-- The method `dpuIpPort` (lines 400-442). -/
def dpuIpPort {K : Type} (pl : Platform K) (w : World K) : Res IpPort × World K :=
  match w.note (pl.GetNameByDeviceID DPUdeviceID) (Event.GetNameByDeviceID DPUdeviceID) with
  | ((_, some err), w1) => (.err err, w1)
  | ((IfName, none), w1) =>
  match enableIPV6LinkLocal pl IfName IPv6AddrDpu w1 with
  | (some err, w2) => (.err err, w2)
  | (none, w2) =>
  match w2.step (pl.InterfaceByName w2.kernel IfName) (Event.InterfaceByName IfName) with
  | (some err, w3) => (.err err, w3)
  | (none, w3) =>
  match w3.step (pl.InterfaceAddrs w3.kernel IfName) (Event.InterfaceAddrs IfName) with
  | (.err err, w4) => (.err err, w4)
  | (.ok addrs, w4) =>
    let IPv6Addres := addrsLoop addrs ""
    if IPv6Addres = "" then (.err (.new "there is no IPv6 Address"), w4)
    else
      let ConnStr := "[" ++ IPv6Addres ++ "%" ++ IfName ++ "]"
      (.ok { Ip := ConnStr, Port := DefaultPort }, w4)

/-- The function `strings.HasPrefix`. -/
def HasPrefix (s p : String) : Bool := p.toList.isPrefixOf s.toList

/-- The constant `netlink.FAMILY_V6` (`AF_INET6` on Linux). -/
def FAMILY_V6 : Int := 10

/-- The `range neighbours` loop of `getNeighbourIPs` (lines 535-541): the value of
`IPv6Address` when the loop ends or breaks. -/
def neighboursLoop : List Neigh → String
  | [] => ""
  | neighbour :: rest =>
    if HasPrefix neighbour.IP "fe80::" = true then neighbour.IP else neighboursLoop rest

/-- The function `getNeighbourIPs` (lines 522-544). -/
def getNeighbourIPs {K : Type} (pl : Platform K) (Ifname : String) (w : World K) :
    Res String × World K :=
  match w.step (pl.LinkByName w.kernel Ifname) (Event.LinkByName Ifname) with
  | (.err err, w1) => (.err err, w1)
  | (.ok link, w1) =>
  match w1.step (pl.NeighList w1.kernel link.Index FAMILY_V6)
      (Event.NeighList link.Index FAMILY_V6) with
  | (.err err, w2) => (.err err, w2)
  | (.ok neighbours, w2) =>
    if neighbours.length = 0 then (.err (.new "neighbour list is empty"), w2)
    else (.ok (neighboursLoop neighbours), w2)

/-- The method `hostIpPort` (lines 446-475). -/
def hostIpPort {K : Type} (pl : Platform K) (w : World K) : Res IpPort × World K :=
  match w.note (pl.GetNameByDeviceID HostDeviceID) (Event.GetNameByDeviceID HostDeviceID) with
  | ((_, some err), w1) => (.err err, w1)
  | ((ifName, none), w1) =>
  match enableIPV6LinkLocal pl ifName IPv6AddrHost w1 with
  | (some err, w2) => (.err err, w2)
  | (none, w2) =>
  match getNeighbourIPs pl ifName w2 with
  | (.err err, w3) => (.err err, w3)
  | (.ok LinkLocalIpv6, w3) =>
    let ConnStr := "[" ++ LinkLocalIpv6 ++ "%25" ++ ifName ++ "]"
    (.ok { Ip := ConnStr, Port := DefaultPort }, w3)

/-- The method `fetchIP` (lines 478-486). -/
def fetchIP {K : Type} (pl : Platform K) (dpuMode : Bool) (w : World K) :
    Res IpPort × World K :=
  if dpuMode = true then dpuIpPort pl w else hostIpPort pl w

/-! ## Initialisation and shutdown (lines 203-232, 567-604)

From here on `vsp.grpcServer` is the server that a successful `Listen` (lines 548-565) has
set, `vsp.wg` and `vsp.startedWg` are the counters of the two wait groups, and the channel
`done` is unbuffered: a send on it completes only together with a receive. -/

/-- The statements of `Stop` before its send on `done` (lines 594-600): the teardown of the
driver, the cleaning of the links and the stop of the RPC server. The two errors are only
logged. -/
def stopTeardown {K : Type} (pl : Platform K) (vsp : mrvlVspServer) (w : World K) :
    mrvlVspServer × World K :=
  let w1 := (w.step (pl.DeleteDataplane w.kernel vsp.bridgeName)
    (Event.DeleteDataplane vsp.bridgeName)).2
  let r := CleanVethPairs pl vsp w1
  (r.2.1, { kernel := r.2.2.kernel, trace := r.2.2.trace ++ [Event.GrpcServerStop] })

/-- How a call of `Init` ends: it returns a pair at once; or it has called `Stop`, is past
the statements of `stopTeardown`, and returns the pair once `Stop` has returned; or it
panics. -/
inductive InitReturn where
  | returned (ipPort : IpPort) (err : Option GoError)
  | afterStop (ipPort : IpPort) (err : Option GoError)
  | panic (msg : String)
deriving DecidableEq, Repr

/-- The method `Init` (lines 205-232), given `in.DpuMode`. On an error `fetchIP` returns the
zero `pb.IpPort`; in DPU mode its error is kept for the final `return` only. -/
def Init {K : Type} (pl : Platform K) (vsp : mrvlVspServer) (inDpuMode : Bool) (w : World K) :
    InitReturn × mrvlVspServer × World K :=
  let vsp1 := { vsp with isDPUMode := inDpuMode }
  let fetched := fetchIP pl inDpuMode w
  let ipPort : IpPort := match fetched.1 with
    | .ok p => p
    | .err _ => {}
  let err : Option GoError := match fetched.1 with
    | .ok _ => none
    | .err e => some e
  if vsp1.isDPUMode = true then
    let vsp2 := if vsp1.deviceStore = none then { vsp1 with deviceStore := some [] } else vsp1
    match ConfigureNetworkInterface pl vsp2 fetched.2 with
    | (.err err, vsp3, w3) =>
      let stopped := stopTeardown pl vsp3 w3
      (.afterStop {} (some err), stopped.1, stopped.2)
    | (.panic msg, vsp3, w3) => (.panic msg, vsp3, w3)
    | (.nil, vsp3, w3) =>
      let vsp4 := { vsp3 with bridgeName := "br-mrv0" }
      match w3.step (pl.InitDataPlane w3.kernel vsp4.bridgeName)
          (Event.InitDataPlane vsp4.bridgeName) with
      | (some err, w4) =>
        let stopped := stopTeardown pl vsp4 w4
        (.afterStop {} (some err), stopped.1, stopped.2)
      | (none, w4) => (.returned { Ip := ipPort.Ip, Port := ipPort.Port } err, vsp4, w4)
  else
    (.returned { Ip := ipPort.Ip, Port := ipPort.Port } err, vsp1, fetched.2)

/-- Where the thread that called `Serve` stands (lines 569-591): not yet in `Serve`; blocked
in the receive of line 585; past the receive and the `grpcServer.Stop()` of line 587, in the
`wg.Wait()` of line 588 with the value received; or returned with that value. -/
inductive ServePC where
  | notCalled
  | receiving
  | waiting (err : Option GoError)
  | returned (err : Option GoError)
deriving DecidableEq, Repr

/-- Where the goroutine of `Serve` stands (lines 571-581): not started; inside
`grpcServer.Serve(listener)`; blocked in its send on `done`; past the send and before
`wg.Done()`; or finished. -/
inductive GoroutinePC where
  | notStarted
  | serving
  | sending (err : Option GoError)
  | sent
  | finished
deriving DecidableEq, Repr

/-- Where the thread that called `Stop` stands (lines 593-604): not yet in `Stop`; past the
`DeleteDataplane` of line 594; past the `CleanVethPairs` of line 597; blocked in the send of
line 601; in the `startedWg.Wait()` of line 602; or returned. -/
inductive StopPC where
  | notCalled
  | deleted
  | cleaned
  | sending
  | waiting
  | returned
deriving DecidableEq, Repr

/-- The daemon with its three threads. `crashed` holds the message of an unrecovered panic,
which ends the process. -/
structure Daemon (K : Type) where
  vsp : mrvlVspServer
  world : World K
  wg : Int
  startedWg : Int
  serve : ServePC
  goroutine : GoroutinePC
  stop : StopPC
  crashed : Option String
deriving DecidableEq

/-- The daemon after `NewMarvellVspServer` and `Listen`: both wait groups have their zero
value (the source has no `startedWg.Add`), and no thread has started. -/
def boot {K : Type} (vsp : mrvlVspServer) (w : World K) : Daemon K :=
  { vsp := vsp, world := w, wg := 0, startedWg := 0, serve := .notCalled,
    goroutine := .notStarted, stop := .notCalled, crashed := none }

/-- What can happen next:
* `Serve`: `Serve` is called, lines 570-573: `wg.Add(1)`, the goroutine starts;
* `grpcServeReturns err`: line 574, `grpcServer.Serve(listener)` returns `err` and the
  goroutine reaches its send (line 575 or 577);
* `Stop`: `Stop` is called and runs lines 594-600, reaching its send (line 601);
* `deliver s`: the send of `s` meets the receive of line 585, and `Serve` goes on through
  line 587;
* `goroutineDone`: lines 579-580, `wg.Done()`;
* `serveRelease`: `wg.Wait()` of line 588 passes, then `startedWg.Done()` and `return`;
* `stopReturn`: `startedWg.Wait()` of line 602 passes and `Stop` returns. -/
inductive Action where
  | Serve
  | grpcServeReturns (err : Option GoError)
  | Stop
  | deliver (s : Sender)
  | goroutineDone
  | serveRelease
  | stopReturn
deriving DecidableEq, Repr

/-- Add events to the trace of the daemon. -/
def Daemon.log {K : Type} (d : Daemon K) (evs : List Event) : World K :=
  { kernel := d.world.kernel, trace := d.world.trace ++ evs }

/-- One step of the daemon, or `none` when the action cannot happen in this state. A wait
group panics when its counter would become negative, and its `Wait` passes only at zero.
These are the three threads alone, with `Stop` up to its send as one step; `fullStep` below
adds the handlers of the RPC server and takes `Stop` a part at a time. -/
def step {K : Type} (pl : Platform K) (a : Action) (d : Daemon K) : Option (Daemon K) :=
  if d.crashed ≠ none then none else
  match a with
  | .Serve =>
    match d.serve with
    | .notCalled =>
      some { d with vsp := { d.vsp with version := Version }, wg := d.wg + 1,
                    serve := .receiving, goroutine := .serving }
    | _ => none
  | .grpcServeReturns err =>
    match d.goroutine with
    | .serving => some { d with goroutine := .sending err }
    | _ => none
  | .Stop =>
    match d.stop with
    | .notCalled =>
      let stopped := stopTeardown pl d.vsp d.world
      some { d with vsp := stopped.1, world := stopped.2, stop := .sending }
    | _ => none
  | .deliver .goroutine =>
    match d.serve, d.goroutine with
    | .receiving, .sending err =>
      some { d with world := d.log [Event.Done .goroutine err, Event.GrpcServerStop],
                    serve := .waiting err, goroutine := .sent }
    | _, _ => none
  | .deliver .stop =>
    match d.serve, d.stop with
    | .receiving, .sending =>
      some { d with world := d.log [Event.Done .stop none, Event.GrpcServerStop],
                    serve := .waiting none, stop := .waiting }
    | _, _ => none
  | .goroutineDone =>
    match d.goroutine with
    | .sent =>
      if d.wg - 1 < 0 then
        some { d with wg := d.wg - 1, crashed := some "sync: negative WaitGroup counter" }
      else some { d with wg := d.wg - 1, goroutine := .finished }
    | _ => none
  | .serveRelease =>
    match d.serve with
    | .waiting err =>
      if d.wg = 0 then
        if d.startedWg - 1 < 0 then
          some { d with startedWg := d.startedWg - 1,
                        crashed := some "sync: negative WaitGroup counter" }
        else some { d with startedWg := d.startedWg - 1, serve := .returned err }
      else none
    | _ => none
  | .stopReturn =>
    match d.stop with
    | .waiting => if d.startedWg = 0 then some { d with stop := .returned } else none
    | _ => none

/-- Run a schedule: the actions one after the other, `none` as soon as one cannot happen. -/
def run {K : Type} (pl : Platform K) : List Action → Daemon K → Option (Daemon K)
  | [], d => some d
  | a :: rest, d =>
    match step pl a d with
    | some d1 => run pl rest d1
    | none => none

/-- The calls that the RPC server dispatches to the daemon while it serves. -/
inductive Rpc where
  | Init (inDpuMode : Bool)
  | CreateBridgePort (name : String)
  | DeleteBridgePort (name : String)
  | CreateNetworkFunction
  | DeleteNetworkFunction
  | GetDevices
  | SetNumVfs (inVfCnt : Int)
deriving DecidableEq, Repr

/-- The daemon together with the handlers of its RPC server. `initStops` counts the handlers
of `Init` that have called `Stop` (line 216 or 223), are past lines 594-600 of it, and stand
at its send (line 601). -/
structure Process (K : Type) where
  daemon : Daemon K
  initStops : Nat
deriving DecidableEq

/-- The process after `NewMarvellVspServer` and `Listen`. -/
def bootProcess {K : Type} (vsp : mrvlVspServer) (w : World K) : Process K :=
  { daemon := boot vsp w, initStops := 0 }

/-- What can happen next in the process:
* `thread a`: the action `a` of `step`, except `Action.Stop`, which is taken a line at a
  time here;
* `rpc call`: a handler, which the server runs on a thread of its own, handles `call`;
* `StopDeleteDataplane`: `Stop` is called and runs lines 594-596;
* `StopCleanVethPairs`: `Stop` runs lines 597-599;
* `StopGrpcServer`: `Stop` runs line 600 and reaches its send (line 601);
* `deliverInitStop`: the send of a `Stop` that a handler of `Init` called meets the receive
  of line 585, and `Serve` goes on through line 587. -/
inductive FullAction where
  | thread (a : Action)
  | rpc (call : Rpc)
  | StopDeleteDataplane
  | StopCleanVethPairs
  | StopGrpcServer
  | deliverInitStop
deriving DecidableEq, Repr

/-- The effect of a handler, run from its first line to its return or, for an `Init` that
calls `Stop`, to the send of that `Stop`. `CreateNetworkFunction` and
`DeleteNetworkFunction` (lines 330-342) only log. A panic in a handler ends the process. -/
def handle {K : Type} (pl : Platform K) (call : Rpc) (p : Process K) : Process K :=
  match call with
  | .Init inDpuMode =>
    match Init pl p.daemon.vsp inDpuMode p.daemon.world with
    | (.returned _ _, vsp1, w1) => { p with daemon := { p.daemon with vsp := vsp1, world := w1 } }
    | (.afterStop _ _, vsp1, w1) =>
      { daemon := { p.daemon with vsp := vsp1, world := w1 }, initStops := p.initStops + 1 }
    | (.panic msg, vsp1, w1) =>
      { p with daemon := { p.daemon with vsp := vsp1, world := w1, crashed := some msg } }
  | .CreateBridgePort name =>
    { p with daemon := { p.daemon with world :=
      (CreateBridgePort pl p.daemon.vsp { Name := name, Spec := (), Status := none }
        p.daemon.world).2 } }
  | .DeleteBridgePort name =>
    { p with daemon := { p.daemon with world :=
      (DeleteBridgePort pl p.daemon.vsp name p.daemon.world).2 } }
  | .CreateNetworkFunction => p
  | .DeleteNetworkFunction => p
  | .GetDevices =>
    { p with daemon := { p.daemon with world := (GetDevices pl p.daemon.vsp p.daemon.world).2 } }
  | .SetNumVfs inVfCnt =>
    { p with daemon := { p.daemon with world :=
      (SetNumVfs pl p.daemon.vsp inVfCnt p.daemon.world).2 } }

/-- One step of the process, or `none` when the action cannot happen in this state.
Handlers are allowed from the moment the goroutine of `Serve` has started, and are not cut
off when the server is stopped: a handler that is under way then still runs to its end.
Each handler and each of the three parts of `Stop` is one step. -/
def fullStep {K : Type} (pl : Platform K) (a : FullAction) (p : Process K) :
    Option (Process K) :=
  if p.daemon.crashed ≠ none then none else
  match a with
  | .thread .Stop => none
  | .thread a =>
    match step pl a p.daemon with
    | some d1 => some { p with daemon := d1 }
    | none => none
  | .rpc call =>
    match p.daemon.goroutine with
    | .notStarted => none
    | _ => some (handle pl call p)
  | .StopDeleteDataplane =>
    match p.daemon.stop with
    | .notCalled =>
      some { p with daemon := { p.daemon with
        world := (p.daemon.world.step
          (pl.DeleteDataplane p.daemon.world.kernel p.daemon.vsp.bridgeName)
          (Event.DeleteDataplane p.daemon.vsp.bridgeName)).2
        stop := .deleted } }
    | _ => none
  | .StopCleanVethPairs =>
    match p.daemon.stop with
    | .deleted =>
      some { p with daemon := { p.daemon with
        vsp := (CleanVethPairs pl p.daemon.vsp p.daemon.world).2.1
        world := (CleanVethPairs pl p.daemon.vsp p.daemon.world).2.2
        stop := .cleaned } }
    | _ => none
  | .StopGrpcServer =>
    match p.daemon.stop with
    | .cleaned =>
      some { p with daemon := { p.daemon with
        world := p.daemon.log [Event.GrpcServerStop], stop := .sending } }
    | _ => none
  | .deliverInitStop =>
    match p.daemon.serve, p.initStops with
    | .receiving, n + 1 =>
      some { daemon := { p.daemon with
               world := p.daemon.log [Event.Done .stop none, Event.GrpcServerStop]
               serve := .waiting none }
             initStops := n }
    | _, _ => none

/-- Run a schedule of the process. -/
def fullRun {K : Type} (pl : Platform K) : List FullAction → Process K → Option (Process K)
  | [], p => some p
  | a :: rest, p =>
    match fullStep pl a p with
    | some p1 => fullRun pl rest p1
    | none => none

/-! ## A small concrete platform, for evaluating the daemon on examples -/

/-- The links of the example kernel, each with the name of its veth peer, and the next
free interface index. -/
structure SimKernel where
  links : List (Link × String)
  next : Nat
deriving DecidableEq, Repr

/-- The hardware address the example kernel gives to the interface with index `i`. -/
def simMAC (i : Nat) : String :=
  "02:00:00:00:00:" ++ (if i < 10 then "0" else "") ++ toString i

/-- Example `LinkAdd` of a veth pair: refused when either name is taken. -/
def simLinkAdd (k : SimKernel) (name peer : String) : Option GoError × SimKernel :=
  if k.links.any (fun l => l.1.Name = name ∨ l.1.Name = peer) then
    (some (.new "file exists"), k)
  else
    (none,
     { links := k.links ++
        [({ Index := k.next, Name := name, HardwareAddr := simMAC k.next, FlagUp := false }, peer),
         ({ Index := k.next + 1, Name := peer, HardwareAddr := simMAC (k.next + 1),
            FlagUp := false }, name)]
       next := k.next + 2 })

/-- Example `LinkByName`. -/
def simLinkByName (k : SimKernel) (name : String) : Res Link × SimKernel :=
  match k.links.find? (fun l => l.1.Name = name) with
  | some l => (.ok l.1, k)
  | none => (.err (.new "Link not found"), k)

/-- Example `LinkSetUp`. -/
def simLinkSetUp (k : SimKernel) (link : Link) : Option GoError × SimKernel :=
  let raised := k.links.map
    (fun l => if l.1.Index = link.Index then ({ l.1 with FlagUp := true }, l.2) else l)
  (none, { k with links := raised })

/-- Example `LinkDel`: the link goes away together with its veth peer. -/
def simLinkDel (k : SimKernel) (link : Link) : Option GoError × SimKernel :=
  if k.links.any (fun l => l.1.Name = link.Name) then
    let kept := k.links.filter (fun l => ¬ (l.1.Name = link.Name ∨ l.2 = link.Name))
    (none, { k with links := kept })
  else
    (some (.new "no such device"), k)

/-- The example platform: a kernel that creates and deletes veth pairs, a neighbour
cache and an address list that are given, commands that always succeed, one physical
function per device identifier, and a dataplane driver that does nothing. -/
def simPlatform (neighbours : List Neigh) (addrs : List Addr) : Platform SimKernel where
  LinkAdd := simLinkAdd
  LinkByName := simLinkByName
  LinkSetUp := simLinkSetUp
  LinkDel := simLinkDel
  NeighList := fun k _ _ => (.ok neighbours, k)
  InterfaceByName := fun k _ => (none, k)
  InterfaceAddrs := fun k _ => (.ok addrs, k)
  Run := fun k _ => (none, k)
  Mapped_VF := fun k _ _ vfid => (("0000:01:00." ++ toString vfid, none), k)
  GetNameByPCI := fun k pci => (("vf-" ++ pci, none), k)
  GetPCIByDeviceID := fun _ => ("0000:01:00.0", none)
  GetNameByDeviceID := fun _ => ("enp1s0", none)
  PrintPortInfo := fun _ => none
  AddPortToDataPlane := fun k _ _ _ _ => (none, k)
  DeletePortFromDataPlane := fun k _ _ => (none, k)
  InitDataPlane := fun k _ => (none, k)
  DeleteDataplane := fun k _ => (none, k)

/-- The example kernel at boot: the physical interface `enp1s0` only. -/
def simKernel0 : SimKernel :=
  { links := [({ Index := 1, Name := "enp1s0", HardwareAddr := "02:00:00:00:00:01",
                 FlagUp := true }, "")]
    next := 2 }

/-- The example world at boot: nothing called yet. -/
def simWorld0 : World SimKernel := { kernel := simKernel0, trace := [] }


/-- The example platform with a kernel that refuses to set `nf_interface1` up. -/
def simPlatformSetUpFails : Platform SimKernel :=
  { simPlatform [] [Addr.IPNet false "fe80::1"] with
    LinkSetUp := fun k link =>
      if link.Name = "nf_interface1" then (some (.new "operation not permitted"), k)
      else simLinkSetUp k link }

/-- The example platform with a driver that cannot delete its dataplane and a kernel that
refuses to delete links. -/
def simPlatformTeardownFails : Platform SimKernel :=
  { simPlatform [] [] with
    DeleteDataplane := fun k _ => (some (.new "driver unreachable"), k)
    LinkDel := fun k _ => (some (.new "operation not permitted"), k) }

/-- The example server and world after `ConfigureNetworkInterface` has provisioned its two
pairs. -/
def simProvisioned : mrvlVspServer × World SimKernel :=
  (ConfigureNetworkInterface (simPlatform [] []) NewMarvellVspServer simWorld0).2

/-- The example daemon after `Serve`, `Stop`, the return of `grpcServer.Serve`, the receipt
of the send of `Stop`, and the return of `Stop`. -/
def simStuck : Daemon SimKernel :=
  (run (simPlatform [] [])
    [Action.Serve, Action.Stop, Action.grpcServeReturns none, Action.deliver Sender.stop,
     Action.stopReturn]
    (boot simProvisioned.1 simProvisioned.2)).getD (boot simProvisioned.1 simProvisioned.2)

/-- The example process after `Serve` was called and the handler of `Init` has provisioned
two pairs and initialised the dataplane "br-mrv0". -/
def simServing : Process SimKernel :=
  (fullRun (simPlatform [] []) [FullAction.thread Action.Serve, FullAction.rpc (Rpc.Init true)]
    (bootProcess NewMarvellVspServer simWorld0)).getD (bootProcess NewMarvellVspServer simWorld0)

/-- The example process after `Serve`, `Init`, and a call of `Stop` that has reached its
send, with a handler of `GetDevices` between the first and the second part of `Stop`. -/
def simAtSend : Process SimKernel :=
  (fullRun (simPlatform [] [])
    [FullAction.thread Action.Serve, FullAction.rpc (Rpc.Init true),
     FullAction.StopDeleteDataplane, FullAction.rpc Rpc.GetDevices,
     FullAction.StopCleanVethPairs, FullAction.StopGrpcServer]
    (bootProcess NewMarvellVspServer simWorld0)).getD (bootProcess NewMarvellVspServer simWorld0)

/-- The example process, on the kernel that refuses to set `nf_interface1` up, after `Serve`
and an `Init` that failed and called `Stop`, which has reached its send. -/
def simInitAtSend : Process SimKernel :=
  (fullRun simPlatformSetUpFails
    [FullAction.thread Action.Serve, FullAction.rpc (Rpc.Init true)]
    (bootProcess NewMarvellVspServer simWorld0)).getD (bootProcess NewMarvellVspServer simWorld0)

/-! ## Words of the specification -/

/-- A non-empty decimal number, as text. -/
def IsDecimal (ds : List Char) : Prop :=
  ds ≠ [] ∧ ∀ c ∈ ds, isDigit c = true

/-- The name format `host<N>-<M>`: the literal "host", a number, a hyphen, a number, and
nothing before or after. -/
def HasHostFormat (s : String) : Prop :=
  ∃ N M : List Char, s.toList = "host".toList ++ N ++ ['-'] ++ M ∧ IsDecimal N ∧ IsDecimal M

/-- The name holds a piece of the format `host<N>-<M>` somewhere. -/
def ContainsHostFormat (s : String) : Prop :=
  ∃ pre N M post : List Char,
    s.toList = pre ++ "host".toList ++ N ++ ['-'] ++ M ++ post ∧ IsDecimal N ∧ IsDecimal M

/-- The text of an address that is a `*net.IPNet` whose `IP.To4()` is nil. -/
def nonIPv4Text : Addr → Option String
  | .IPNet false text => some text
  | _ => none

/-- The name a link lookup asked for. -/
def lookedUp : Event → Option String
  | .LinkByName name _ => some name
  | _ => none

/-- The link a successful lookup found. -/
def found : Event → Option Link
  | .LinkByName _ (.ok link) => some link
  | _ => none

/-- The link a deletion was attempted on. -/
def deletionOf : Event → Option Link
  | .LinkDel link _ => some link
  | _ => none

/-- The error of a failed lookup or of a failed deletion. -/
def failureOf : Event → Option GoError
  | .LinkByName _ (.err e) => some e
  | .LinkDel _ (some e) => some e
  | _ => none

/-- The bridge a call of `InitDataPlane` was made for. -/
def dataplaneInitOf : Event → Option String
  | .InitDataPlane bridgeName _ => some bridgeName
  | _ => none

/-- The events of the calls of one `Stop` up to its send: `DeleteDataplane` for the bridge
name of the server `vspA` in the world `wA`, the calls of `CleanVethPairs` on the server
`vspB` in the world `wB`, and `grpcServer.Stop()`. -/
def stopCalls {K : Type} (pl : Platform K) (vspA : mrvlVspServer) (wA : World K)
    (vspB : mrvlVspServer) (wB : World K) : List Event :=
  Event.DeleteDataplane vspA.bridgeName (pl.DeleteDataplane wA.kernel vspA.bridgeName).1
    :: (newEvents wB (CleanVethPairs pl vspB wB).2.2 ++ [Event.GrpcServerStop])

/-- In a run of `schedule` from `p0` with the events `evs`, a thread has called `Stop` and
reached its send: the three parts of `Stop` are in the schedule, in their order, the first
taken in the state `pA` and the second in the state `pB`, and `evs` shows their calls, in
their order. -/
def stopReachedSend {K : Type} (pl : Platform K) (p0 : Process K)
    (schedule : List FullAction) (evs : List Event) : Prop :=
  ∃ (s1 s2 s3 s4 : List FullAction) (pA pB : Process K),
    schedule = s1 ++ FullAction.StopDeleteDataplane
      :: (s2 ++ FullAction.StopCleanVethPairs :: (s3 ++ FullAction.StopGrpcServer :: s4)) ∧
    fullRun pl s1 p0 = some pA ∧
    fullRun pl (s1 ++ FullAction.StopDeleteDataplane :: s2) p0 = some pB ∧
    List.Sublist
      (stopCalls pl pA.daemon.vsp pA.daemon.world pB.daemon.vsp pB.daemon.world) evs

/-- In a run of `schedule` from `p0` with the events `evs`, a handler of `Init`, begun in
the state `pH`, has called `Stop` and reached its send: that `Stop` began at a server
`vspS` and a world `wS` that `Init` had reached, and `evs` shows its calls, in their order. -/
def initReachedSend {K : Type} (pl : Platform K) (p0 : Process K)
    (schedule : List FullAction) (evs : List Event) : Prop :=
  ∃ (s1 s2 : List FullAction) (pH : Process K) (inDpuMode : Bool) (ipPort : IpPort)
      (err : Option GoError) (vspS : mrvlVspServer) (wS : World K),
    schedule = s1 ++ FullAction.rpc (Rpc.Init inDpuMode) :: s2 ∧
    fullRun pl s1 p0 = some pH ∧
    (Init pl pH.daemon.vsp inDpuMode pH.daemon.world).1 = InitReturn.afterStop ipPort err ∧
    pH.daemon.world.trace <+: wS.trace ∧
    (Init pl pH.daemon.vsp inDpuMode pH.daemon.world).2 = stopTeardown pl vspS wS ∧
    List.Sublist
      (stopCalls pl vspS wS vspS
        (wS.step (pl.DeleteDataplane wS.kernel vspS.bridgeName)
          (Event.DeleteDataplane vspS.bridgeName)).2) evs

/-- How far the `Stop` called by a thread has come in a run of `schedule` from `p0` with the
events `evs`, for each place where it can stand. -/
def stopProgress {K : Type} (pl : Platform K) (p0 : Process K)
    (schedule : List FullAction) (evs : List Event) : StopPC → Prop
  | .notCalled => True
  | .deleted => ∃ (s1 s2 : List FullAction) (pA : Process K),
      schedule = s1 ++ FullAction.StopDeleteDataplane :: s2 ∧
      fullRun pl s1 p0 = some pA ∧
      List.Sublist
        [Event.DeleteDataplane pA.daemon.vsp.bridgeName
          (pl.DeleteDataplane pA.daemon.world.kernel pA.daemon.vsp.bridgeName).1] evs
  | .cleaned => ∃ (s1 s2 s3 : List FullAction) (pA pB : Process K),
      schedule = s1 ++ FullAction.StopDeleteDataplane
        :: (s2 ++ FullAction.StopCleanVethPairs :: s3) ∧
      fullRun pl s1 p0 = some pA ∧
      fullRun pl (s1 ++ FullAction.StopDeleteDataplane :: s2) p0 = some pB ∧
      List.Sublist
        (Event.DeleteDataplane pA.daemon.vsp.bridgeName
            (pl.DeleteDataplane pA.daemon.world.kernel pA.daemon.vsp.bridgeName).1
          :: newEvents pB.daemon.world
              (CleanVethPairs pl pB.daemon.vsp pB.daemon.world).2.2) evs
  | .sending => stopReachedSend pl p0 schedule evs
  | .waiting => stopReachedSend pl p0 schedule evs
  | .returned => stopReachedSend pl p0 schedule evs

/-- What holds of a run of `schedule` from `p0` that has reached `p`: the trace has only
grown, the `Stop` of a thread has made the calls of the place where it stands, and so has
the `Stop` of a handler of `Init` that stands at its send. -/
def teardownShown {K : Type} (pl : Platform K) (p0 : Process K)
    (schedule : List FullAction) (p : Process K) : Prop :=
  p0.daemon.world.trace <+: p.daemon.world.trace ∧
  stopProgress pl p0 schedule (newEvents p0.daemon.world p.daemon.world) p.daemon.stop ∧
  (0 < p.initStops →
    initReachedSend pl p0 schedule (newEvents p0.daemon.world p.daemon.world))

/-- The registry as a list of entries, empty for the nil map. -/
def registryEntries (vsp : mrvlVspServer) : List (String × mrvlDeviceInfo) :=
  vsp.deviceStore.getD []


/-! ## Helper lemmas -/

theorem newEvents_self {K : Type} (w : World K) : newEvents w w = [] := by
  simp [newEvents]

theorem newEvents_append {K : Type} (w : World K) (k : K) (evs : List Event) :
    newEvents w { kernel := k, trace := w.trace ++ evs } = evs := by
  simp [newEvents]

theorem mapGet_mapSet_same {β : Type} (m : List (String × β)) (k : String) (v : β) :
    mapGet (mapSet m k v) k = some v := by
  induction m with
  | nil => simp [mapSet, mapGet]
  | cons hd tl ih =>
    obtain ⟨k0, v0⟩ := hd
    by_cases h : k0 = k
    · simp [mapSet, mapGet, h]
    · simp [mapSet, mapGet, h, ih]

theorem mapGet_mapSet_other {β : Type} (m : List (String × β)) (k key : String) (v : β)
    (h : k ≠ key) : mapGet (mapSet m k v) key = mapGet m key := by
  induction m with
  | nil => simp [mapSet, mapGet, h]
  | cons hd tl ih =>
    obtain ⟨k0, v0⟩ := hd
    by_cases h0 : k0 = k
    · subst h0
      simp [mapSet, mapGet, h]
    · by_cases h1 : k0 = key
      · subst h1
        simp [mapSet, mapGet, h0]
      · simp [mapSet, mapGet, h0, h1, ih]

/-! ## C2: the VF index handed to `Mapped_VF` -/

/-- C2 (the code at the failing input): for the name "host0-1" the first call `getVFDetails`
issues is `Mapped_VF(1, 0, 0)`: the VF index passed is the first number of the name, 0,
and not the second, 1. -/
theorem getVFDetails_host0_1_passes_first_number {K : Type} (pl : Platform K) (w : World K) :
    (newEvents w (getVFDetails pl "host0-1" w).2).head?
      = some (Event.Mapped_VF 1 0 0 (pl.Mapped_VF w.kernel 1 0 0).1) := by
  have hm : FindStringSubmatch "host0-1" = some ["host0-1", "0", "1"] := by decide
  have ha : Atoi "0" = Res.ok 0 := by decide
  simp only [getVFDetails, hm, List.getD_cons_succ, List.getD_cons_zero, ha, World.step,
    NumPFs, PFID, isDPDK]
  rcases hr : pl.Mapped_VF w.kernel 1 0 0 with ⟨⟨addr, e⟩, k1⟩
  cases e with
  | some err => simp [newEvents]
  | none =>
    by_cases hempty : addr = ""
    · simp [hempty, newEvents]
    · rcases hn : pl.GetNameByPCI k1 addr with ⟨⟨nm, e2⟩, k2⟩
      cases e2 <;> simp [hempty, hn, newEvents]

/-! ## C4: host-side neighbour resolution -/

/-- C4 (the code at the failing input): with a neighbour cache that holds one entry,
`2001:db8::1`, which does not start with `fe80::`, `getNeighbourIPs` returns the empty
address and a nil error, and `hostIpPort` returns a successful endpoint whose address part
is empty. -/
theorem hostIpPort_empty_address_without_link_local_neighbour :
    (getNeighbourIPs (simPlatform [{ IP := "2001:db8::1" }] []) "enp1s0" simWorld0).1
      = Res.ok "" ∧
    (hostIpPort (simPlatform [{ IP := "2001:db8::1" }] []) simWorld0).1
      = Res.ok { Ip := "[%25enp1s0]", Port := 8085 } := by
  decide

/-! ## C6, C7: `SetNumVfs` -/

/-- C6: in DPU mode (whatever the count), and for a negative count, `SetNumVfs` returns an
error and no response, leaves the kernel as it was, and runs no command at all, so that
neither write to `sriov_numvfs` is issued. -/
theorem SetNumVfs_policy_violation_rejected {K : Type} (pl : Platform K)
    (vsp : mrvlVspServer) (inVfCnt : Int) (w : World K)
    (h : vsp.isDPUMode = true ∨ inVfCnt < 0) :
    (∃ e, (SetNumVfs pl vsp inVfCnt w).1 = Res.err e) ∧
    (SetNumVfs pl vsp inVfCnt w).2.kernel = w.kernel ∧
    ∀ argv r, Event.Run argv r ∉ newEvents w (SetNumVfs pl vsp inVfCnt w).2 := by
  by_cases hmode : vsp.isDPUMode = true
  · simp [SetNumVfs, hmode, newEvents]
  · have hneg : inVfCnt < 0 := h.resolve_left hmode
    rcases hr : pl.GetPCIByDeviceID HostDeviceID with ⟨addr, e⟩
    by_cases hbad : addr = "" ∨ e ≠ none
    · simp [SetNumVfs, hmode, World.note, hr, hbad, newEvents]
    · simp [SetNumVfs, hmode, World.note, hr, hbad, hneg, newEvents]

/-- C6 at concrete requests: a request for 4 VFs in DPU mode, and a request for -1 VFs in
host mode. -/
theorem SetNumVfs_policy_violation_rejected_witness :
    ((∃ e, (SetNumVfs (simPlatform [] []) { NewMarvellVspServer with isDPUMode := true } 4
        simWorld0).1 = Res.err e) ∧
      (SetNumVfs (simPlatform [] []) { NewMarvellVspServer with isDPUMode := true } 4
        simWorld0).2.kernel = simWorld0.kernel ∧
      ∀ argv r, Event.Run argv r ∉ newEvents simWorld0
        (SetNumVfs (simPlatform [] []) { NewMarvellVspServer with isDPUMode := true } 4
          simWorld0).2) ∧
    ((∃ e, (SetNumVfs (simPlatform [] []) NewMarvellVspServer (-1) simWorld0).1 = Res.err e) ∧
      (SetNumVfs (simPlatform [] []) NewMarvellVspServer (-1) simWorld0).2.kernel
        = simWorld0.kernel ∧
      ∀ argv r, Event.Run argv r ∉ newEvents simWorld0
        (SetNumVfs (simPlatform [] []) NewMarvellVspServer (-1) simWorld0).2) :=
  ⟨SetNumVfs_policy_violation_rejected (simPlatform [] [])
      { NewMarvellVspServer with isDPUMode := true } 4 simWorld0 (Or.inl rfl),
   SetNumVfs_policy_violation_rejected (simPlatform [] []) NewMarvellVspServer (-1) simWorld0
      (Or.inr (by decide))⟩

/-- C7: in host mode, with the host physical function at a non-empty PCI address `p` and a
count `n ≥ 0`, the commands `SetNumVfs` runs are the write of `0` to the `sriov_numvfs` file
of `p` and then, only if that succeeded, the write of the decimal text of `n` to the same
file. A failed reset gives an error that names it; a failed second write gives its error;
two successful writes give the response `n`. -/
theorem SetNumVfs_host_mode_writes {K : Type} (pl : Platform K) (vsp : mrvlVspServer)
    (n : Int) (w : World K) (p : String)
    (hmode : vsp.isDPUMode = false)
    (hpci : pl.GetPCIByDeviceID HostDeviceID = (p, none)) (hp : p ≠ "") (hn : 0 ≤ n) :
    (∀ e, (pl.Run w.kernel (sriovWrite "0" p)).1 = some e →
      (SetNumVfs pl vsp n w).1
        = Res.err (GoError.new ("failed to reset sriov_numvfs to 0: " ++ e.Error)) ∧
      newEvents w (SetNumVfs pl vsp n w).2
        = [Event.GetPCIByDeviceID HostDeviceID (p, none),
           Event.Run (sriovWrite "0" p) (some e)]) ∧
    ((pl.Run w.kernel (sriovWrite "0" p)).1 = none →
      newEvents w (SetNumVfs pl vsp n w).2
        = [Event.GetPCIByDeviceID HostDeviceID (p, none),
           Event.Run (sriovWrite "0" p) none,
           Event.Run (sriovWrite (toString n) p)
             (pl.Run (pl.Run w.kernel (sriovWrite "0" p)).2 (sriovWrite (toString n) p)).1] ∧
      ((pl.Run (pl.Run w.kernel (sriovWrite "0" p)).2 (sriovWrite (toString n) p)).1 = none →
        (SetNumVfs pl vsp n w).1 = Res.ok n) ∧
      (∀ e, (pl.Run (pl.Run w.kernel (sriovWrite "0" p)).2 (sriovWrite (toString n) p)).1
          = some e → (SetNumVfs pl vsp n w).1 = Res.err e)) := by
  have hnn : ¬ n < 0 := not_lt.mpr hn
  constructor
  · intro e he
    simp [SetNumVfs, hmode, World.note, World.step, hpci, hp, hnn, he, newEvents]
  · intro h0
    cases h1 : (pl.Run (pl.Run w.kernel (sriovWrite "0" p)).2 (sriovWrite (toString n) p)).1
      with
    | none => simp [SetNumVfs, hmode, World.note, World.step, hpci, hp, hnn, h0, h1, newEvents]
    | some e =>
      simp [SetNumVfs, hmode, World.note, World.step, hpci, hp, hnn, h0, h1, newEvents]

/-- C7 at a concrete request: 4 VFs in host mode on the example platform, where both
writes succeed. -/
theorem SetNumVfs_host_mode_writes_witness :
    (NewMarvellVspServer.isDPUMode = false ∧
      (simPlatform [] []).GetPCIByDeviceID HostDeviceID = ("0000:01:00.0", none) ∧
      "0000:01:00.0" ≠ "" ∧ (0 : Int) ≤ 4) ∧
    newEvents simWorld0 (SetNumVfs (simPlatform [] []) NewMarvellVspServer 4 simWorld0).2
      = [Event.GetPCIByDeviceID "b900" ("0000:01:00.0", none),
         Event.Run ["sh", "-c", "echo 0 > /sys/bus/pci/devices/0000:01:00.0/sriov_numvfs"] none,
         Event.Run ["sh", "-c", "echo 4 > /sys/bus/pci/devices/0000:01:00.0/sriov_numvfs"] none] ∧
    (SetNumVfs (simPlatform [] []) NewMarvellVspServer 4 simWorld0).1 = Res.ok 4 :=
  ⟨⟨rfl, rfl, by decide, by decide⟩,
   ((SetNumVfs_host_mode_writes (simPlatform [] []) NewMarvellVspServer 4 simWorld0
      "0000:01:00.0" rfl rfl (by decide) (by decide)).2 rfl).1,
   ((SetNumVfs_host_mode_writes (simPlatform [] []) NewMarvellVspServer 4 simWorld0
      "0000:01:00.0" rfl rfl (by decide) (by decide)).2 rfl).2.1 rfl⟩

/-! ## C8: cleaning twice -/

/-- C8: after one `CleanVethPairs` the registry is nil, and a second `CleanVethPairs`
issues no call at all (no link lookup, no link deletion), returns a nil error and leaves
the server and the kernel as they were. -/
theorem CleanVethPairs_idempotent {K : Type} (pl : Platform K) (vsp : mrvlVspServer)
    (w : World K) :
    (CleanVethPairs pl vsp w).2.1.deviceStore = none ∧
    CleanVethPairs pl (CleanVethPairs pl vsp w).2.1 (CleanVethPairs pl vsp w).2.2
      = (none, (CleanVethPairs pl vsp w).2.1, (CleanVethPairs pl vsp w).2.2) ∧
    newEvents (CleanVethPairs pl vsp w).2.2
      (CleanVethPairs pl (CleanVethPairs pl vsp w).2.1 (CleanVethPairs pl vsp w).2.2).2.2
      = [] := by
  have h1 : (CleanVethPairs pl vsp w).2.1.deviceStore = none := by
    cases hs : vsp.deviceStore <;> simp [CleanVethPairs, hs]
  have h2 : ∀ (v : mrvlVspServer) (x : World K), v.deviceStore = none →
      CleanVethPairs pl v x = (none, v, x) := by
    intro v x hv
    simp [CleanVethPairs, hv]
  refine ⟨h1, h2 _ _ h1, ?_⟩
  rw [h2 _ _ h1]
  exact newEvents_self _

theorem matchHere_sound (cs d1 d2 : List Char) (h : matchHere cs = some (d1, d2)) :
    ∃ post, cs = "host".toList ++ d1 ++ ['-'] ++ d2 ++ post ∧ d1 ≠ [] ∧ d2 ≠ [] ∧
      (∀ c ∈ d1, isDigit c = true) ∧ (∀ c ∈ d2, isDigit c = true) := by
  unfold matchHere at h
  split at h
  · rename_i rest
    simp only at h
    split at h
    · cases h
    · rename_i hd1
      split at h
      · rename_i rest2 hdrop
        split at h
        · cases h
        · rename_i hd2
          simp only [Option.some.injEq, Prod.mk.injEq] at h
          obtain ⟨h1, h2⟩ := h
          refine ⟨rest2.dropWhile isDigit, ?_, ?_, ?_, ?_, ?_⟩
          · have e1 := List.takeWhile_append_dropWhile isDigit rest
            have e2 := List.takeWhile_append_dropWhile isDigit rest2
            rw [hdrop, h1] at e1
            rw [h2] at e2
            have e3 : rest = d1 ++ '-' :: (d2 ++ rest2.dropWhile isDigit) := by
              rw [e2]; exact e1.symm
            rw [e3]
            simp
          · rw [← h1]; exact hd1
          · rw [← h2]; exact hd2
          · intro c hc
            rw [← h1] at hc
            exact (List.mem_takeWhile_imp hc)
          · intro c hc
            rw [← h2] at hc
            exact (List.mem_takeWhile_imp hc)
      · cases h
  · cases h

theorem findMatch_sound (cs d1 d2 : List Char) (h : findMatch cs = some (d1, d2)) :
    ∃ pre post, cs = pre ++ "host".toList ++ d1 ++ ['-'] ++ d2 ++ post ∧ d1 ≠ [] ∧ d2 ≠ [] ∧
      (∀ c ∈ d1, isDigit c = true) ∧ (∀ c ∈ d2, isDigit c = true) := by
  induction cs with
  | nil => simp [findMatch] at h
  | cons c cs ih =>
    unfold findMatch at h
    split at h
    · rename_i m hm
      cases h
      obtain ⟨post, hpost, hrest⟩ := matchHere_sound _ _ _ hm
      exact ⟨[], post, by simpa using hpost, hrest⟩
    · obtain ⟨pre, post, hcs, hrest⟩ := ih h
      exact ⟨c :: pre, post, by simp [hcs], hrest⟩

theorem takeWhile_digits_append (N rest : List Char) (hN : ∀ c ∈ N, isDigit c = true) :
    (N ++ rest).takeWhile isDigit = N ++ rest.takeWhile isDigit := by
  induction N with
  | nil => simp
  | cons c N ih =>
    have hc : isDigit c = true := hN c (List.mem_cons_self _ _)
    simp [List.takeWhile, hc, ih (fun x hx => hN x (List.mem_cons_of_mem _ hx))]

theorem dropWhile_digits_append (N rest : List Char) (hN : ∀ c ∈ N, isDigit c = true) :
    (N ++ rest).dropWhile isDigit = rest.dropWhile isDigit := by
  induction N with
  | nil => simp
  | cons c N ih =>
    have hc : isDigit c = true := hN c (List.mem_cons_self _ _)
    simp [List.dropWhile, hc, ih (fun x hx => hN x (List.mem_cons_of_mem _ hx))]

theorem matchHere_complete (N M post : List Char) (hN : N ≠ []) (hM : M ≠ [])
    (hNd : ∀ c ∈ N, isDigit c = true) (hMd : ∀ c ∈ M, isDigit c = true) :
    matchHere ("host".toList ++ N ++ ['-'] ++ M ++ post)
      = some (N, M ++ post.takeWhile isDigit) := by
  have hdash : isDigit '-' = false := by decide
  have e : "host".toList ++ N ++ ['-'] ++ M ++ post
      = 'h' :: 'o' :: 's' :: 't' :: (N ++ '-' :: (M ++ post)) := by simp
  rw [e]
  simp only [matchHere]
  have t1 : (N ++ '-' :: (M ++ post)).takeWhile isDigit = N := by
    rw [takeWhile_digits_append N _ hNd]
    simp [List.takeWhile, hdash]
  have d1 : (N ++ '-' :: (M ++ post)).dropWhile isDigit = '-' :: (M ++ post) := by
    rw [dropWhile_digits_append N _ hNd]
    simp [List.dropWhile, hdash]
  have t2 : (M ++ post).takeWhile isDigit = M ++ post.takeWhile isDigit :=
    takeWhile_digits_append M _ hMd
  rw [t1, d1]
  simp [hN, t2, hM]

theorem findMatch_of_matchHere (cs : List Char) (m : List Char × List Char)
    (h : matchHere cs = some m) : findMatch cs = some m := by
  cases cs with
  | nil => simp [matchHere] at h
  | cons c cs =>
    unfold findMatch
    rw [h]

theorem findMatch_complete (pre N M post : List Char) (hN : N ≠ []) (hM : M ≠ [])
    (hNd : ∀ c ∈ N, isDigit c = true) (hMd : ∀ c ∈ M, isDigit c = true) :
    findMatch (pre ++ "host".toList ++ N ++ ['-'] ++ M ++ post) ≠ none := by
  induction pre with
  | nil =>
    have hm := findMatch_of_matchHere _ _ (matchHere_complete N M post hN hM hNd hMd)
    rw [List.nil_append, hm]
    simp
  | cons c pre ih =>
    have e : (c :: pre) ++ "host".toList ++ N ++ ['-'] ++ M ++ post
        = c :: (pre ++ "host".toList ++ N ++ ['-'] ++ M ++ post) := by simp
    rw [e]
    unfold findMatch
    split
    · simp
    · exact ih

theorem FindStringSubmatch_none_of_not_contains (s : String) (h : ¬ ContainsHostFormat s) :
    FindStringSubmatch s = none := by
  unfold FindStringSubmatch
  cases hm : findMatch s.toList with
  | none => rfl
  | some m =>
    obtain ⟨d1, d2⟩ := m
    obtain ⟨pre, post, hcs, h1, h2, h3, h4⟩ := findMatch_sound _ _ _ hm
    exact absurd ⟨pre, d1, d2, post, hcs, ⟨h1, h3⟩, ⟨h2, h4⟩⟩ h

theorem not_contains_of_findMatch_none (s : String) (h : findMatch s.toList = none) :
    ¬ ContainsHostFormat s := by
  rintro ⟨pre, N, M, post, hcs, ⟨hN, hNd⟩, ⟨hM, hMd⟩⟩
  rw [hcs] at h
  exact findMatch_complete pre N M post hN hM hNd hMd h

theorem FindStringSubmatch_of_format (s : String) (N M : List Char)
    (hs : s.toList = "host".toList ++ N ++ ['-'] ++ M) (hN : IsDecimal N) (hM : IsDecimal M) :
    FindStringSubmatch s
      = some [String.mk ("host".toList ++ N ++ ['-'] ++ M), String.mk N, String.mk M] := by
  have hm := findMatch_of_matchHere _ _ (matchHere_complete N M [] hN.1 hM.1 hN.2 hM.2)
  simp only [List.takeWhile_nil, List.append_nil] at hm
  unfold FindStringSubmatch
  rw [hs, hm]

theorem Atoi_decimal (N : List Char) (hN : IsDecimal N) (hfit : digitsValue N < 2 ^ 63) :
    Atoi (String.mk N) = Res.ok (digitsValue N : Int) := by
  obtain ⟨hne, hd⟩ := hN
  have hall : N.all isDigit = true := List.all_eq_true.mpr hd
  cases N with
  | nil => exact absurd rfl hne
  | cons c rest =>
    have hc : isDigit c = true := hd c (List.mem_cons_self _ _)
    have h1 : c ≠ '-' := by
      intro h; rw [h] at hc; exact absurd hc (by decide)
    have h2 : c ≠ '+' := by
      intro h; rw [h] at hc; exact absurd hc (by decide)
    simp only [Atoi, String.toList, List.head?_cons, Option.some.injEq, h1, h2, or_self,
      decide_False, Bool.false_eq_true, if_false, hall, hfit, if_true]
    simp


/-! ## C10: the errors of `getVFDetails` -/

/-- C10 (as stated, refuted): the name "xhost0-1" is not of the format `host<N>-<M>` (a
character stands before "host"), yet `getVFDetails` does not fail: the unanchored
expression matches inside the name, `Mapped_VF` is called and a VF is returned. -/
theorem getVFDetails_accepts_unanchored_name :
    ¬ HasHostFormat "xhost0-1" ∧
    getVFDetails (simPlatform [] []) "xhost0-1" simWorld0
      = (Res.ok ("vf-0000:01:00.0", "0000:01:00.0"),
         { kernel := simKernel0,
           trace := [Event.Mapped_VF 1 0 0 ("0000:01:00.0", none),
                     Event.GetNameByPCI "0000:01:00.0" ("vf-0000:01:00.0", none)] }) := by
  refine ⟨?_, by decide⟩
  rintro ⟨N, M, h, -, -⟩
  have h0 : ("xhost0-1".toList).head? = some 'x' := by decide
  rw [h] at h0
  simp at h0

/-- C10 (amended): `getVFDetails` fails with "no VFId Match Found", issuing no call, for
every name that holds no piece of the form `host<N>-<M>`; and for a name of the format
`host<N>-<M>` whose `N` is below `2^63`, it issues exactly one enumeration call, with PF
count 1 and PF index 0, and fails with "mapped VF not found" when that call yields an empty
PCI address and no error. -/
theorem getVFDetails_errors {K : Type} (pl : Platform K) (w : World K) (s : String) :
    (¬ ContainsHostFormat s →
      getVFDetails pl s w = (Res.err (GoError.new "no VFId Match Found"), w)) ∧
    (∀ N M : List Char, s.toList = "host".toList ++ N ++ ['-'] ++ M →
      IsDecimal N → IsDecimal M → digitsValue N < 2 ^ 63 →
      (∀ numPFs pfid vfid r,
        Event.Mapped_VF numPFs pfid vfid r ∈ newEvents w (getVFDetails pl s w).2 →
          r = ("", none)) →
      (getVFDetails pl s w).1 = Res.err (GoError.new "mapped VF not found") ∧
      ∃ vfid, newEvents w (getVFDetails pl s w).2
        = [Event.Mapped_VF 1 0 vfid ("", none)]) := by
  constructor
  · intro h
    simp [getVFDetails, FindStringSubmatch_none_of_not_contains s h]
  · intro N M hs hN hM hfit hyield
    have hm := FindStringSubmatch_of_format s N M hs hN hM
    have ha := Atoi_decimal N hN hfit
    have hcall : Event.Mapped_VF NumPFs PFID (digitsValue N)
        (pl.Mapped_VF w.kernel NumPFs PFID (digitsValue N)).1
          ∈ newEvents w (getVFDetails pl s w).2 := by
      simp only [getVFDetails, hm, List.getD_cons_succ, List.getD_cons_zero, ha, World.step]
      rcases hr : pl.Mapped_VF w.kernel NumPFs PFID (digitsValue N) with ⟨⟨addr, e⟩, k1⟩
      cases e with
      | some err => simp [newEvents]
      | none =>
        by_cases hempty : addr = ""
        · simp [hempty, newEvents]
        · rcases hn : pl.GetNameByPCI k1 addr with ⟨⟨nm, e2⟩, k2⟩
          cases e2 <;> simp [hempty, hn, newEvents, isDPDK]
    have hres := hyield _ _ _ _ hcall
    rcases hr : pl.Mapped_VF w.kernel NumPFs PFID (digitsValue N) with ⟨⟨addr, e⟩, k1⟩
    rw [hr] at hres
    simp only [Prod.mk.injEq] at hres
    obtain ⟨rfl, rfl⟩ := hres
    have hr1 : pl.Mapped_VF w.kernel 1 0 (digitsValue N : Int) = (("", none), k1) := hr
    refine ⟨?_, (digitsValue N : Int), ?_⟩
    · simp [getVFDetails, hm, ha, World.step, hr]
    · simp [getVFDetails, hm, ha, World.step, hr1, newEvents, NumPFs, PFID]

/-- C10 (amended) at concrete names: "port7" holds no piece of the form, and "host3-1" is
resolved on a platform whose enumeration finds nothing. -/
theorem getVFDetails_errors_witness :
    (¬ ContainsHostFormat "port7" ∧
      getVFDetails (simPlatform [] []) "port7" simWorld0
        = (Res.err (GoError.new "no VFId Match Found"), simWorld0)) ∧
    ((getVFDetails { simPlatform [] [] with Mapped_VF := fun k _ _ _ => (("", none), k) } "host3-1"
        simWorld0).1 = Res.err (GoError.new "mapped VF not found") ∧
      ∃ vfid, newEvents simWorld0
        (getVFDetails { simPlatform [] [] with Mapped_VF := fun k _ _ _ => (("", none), k) } "host3-1"
          simWorld0).2 = [Event.Mapped_VF 1 0 vfid ("", none)]) :=
  ⟨⟨not_contains_of_findMatch_none "port7" (by decide),
    (getVFDetails_errors (simPlatform [] []) simWorld0 "port7").1
      (not_contains_of_findMatch_none "port7" (by decide))⟩,
   (getVFDetails_errors { simPlatform [] [] with Mapped_VF := fun k _ _ _ => (("", none), k) }
      simWorld0 "host3-1").2 ['3'] ['1'] (by decide)
      ⟨by decide, by decide⟩ ⟨by decide, by decide⟩ (by decide)
      (by
        have h : newEvents simWorld0
            (getVFDetails { simPlatform [] [] with Mapped_VF := fun k _ _ _ => (("", none), k) }
              "host3-1" simWorld0).2 = [Event.Mapped_VF 1 0 3 ("", none)] := by decide
        intro numPFs pfid vfid r hmem
        rw [h] at hmem
        simp at hmem
        exact hmem.2.2.2)⟩


/-! ## C9: creating and deleting a bridge port -/

theorem getVFDetails_trace {K : Type} (pl : Platform K) (s : String) (w : World K) :
    ∃ evs, (getVFDetails pl s w).2.trace = w.trace ++ evs := by
  cases hm : FindStringSubmatch s with
  | none => exact ⟨[], by simp [getVFDetails, hm]⟩
  | some submatches =>
    simp only [getVFDetails, hm]
    generalize Atoi (submatches.getD 1 "") = a
    cases a with
    | err e => exact ⟨[], by simp⟩
    | ok v =>
      simp only [World.step]
      rcases hr : pl.Mapped_VF w.kernel NumPFs PFID v with ⟨⟨addr, e⟩, k1⟩
      cases e with
      | some err => exact ⟨_, rfl⟩
      | none =>
        by_cases hempty : addr = ""
        · exact ⟨[Event.Mapped_VF NumPFs PFID v (addr, none)], by simp [hempty]⟩
        · rcases hn : pl.GetNameByPCI k1 addr with ⟨⟨nm, e2⟩, k2⟩
          cases e2 with
          | none =>
            exact ⟨[Event.Mapped_VF NumPFs PFID v (addr, none),
              Event.GetNameByPCI addr (nm, none)], by simp [hempty, hn, isDPDK]⟩
          | some e3 =>
            exact ⟨[Event.Mapped_VF NumPFs PFID v (addr, none),
              Event.GetNameByPCI addr (nm, some e3)], by simp [hempty, hn, isDPDK]⟩

theorem addrsLoop_eq_last (addrs : List Addr) (cur : String) :
    addrsLoop addrs cur = ((addrs.filterMap nonIPv4Text).getLast?).getD cur := by
  induction addrs generalizing cur with
  | nil => simp [addrsLoop]
  | cons a rest ih =>
    cases a with
    | other => simp [addrsLoop, nonIPv4Text, ih]
    | IPNet isIPv4 text =>
      cases isIPv4 with
      | true => simp [addrsLoop, nonIPv4Text, ih]
      | false =>
        have hf : List.filterMap nonIPv4Text (Addr.IPNet false text :: rest)
            = text :: List.filterMap nonIPv4Text rest := rfl
        have hl : addrsLoop (Addr.IPNet false text :: rest) cur = addrsLoop rest text := rfl
        rw [hf, hl, List.getLast?_cons, ih]
        rfl

/-- C5 (as stated, refuted): the device resolves, the assignment of `fe80::1` succeeds, and
the interface reports `10.0.0.1`, `fe80::1` and `fe80::a8bb:ccff:fe00:1`; the address of the
endpoint returned is "[fe80::a8bb:ccff:fe00:1%enp1s0]", which is not `IPv6AddrDpu`. -/
theorem dpuIpPort_address_is_not_the_fixed_literal :
    (simPlatform []
        [Addr.IPNet true "10.0.0.1", Addr.IPNet false "fe80::1",
         Addr.IPNet false "fe80::a8bb:ccff:fe00:1"]).GetNameByDeviceID DPUdeviceID
      = ("enp1s0", none) ∧
    (enableIPV6LinkLocal (simPlatform []
        [Addr.IPNet true "10.0.0.1", Addr.IPNet false "fe80::1",
         Addr.IPNet false "fe80::a8bb:ccff:fe00:1"]) "enp1s0" IPv6AddrDpu simWorld0).1 = none ∧
    (dpuIpPort (simPlatform []
        [Addr.IPNet true "10.0.0.1", Addr.IPNet false "fe80::1",
         Addr.IPNet false "fe80::a8bb:ccff:fe00:1"]) simWorld0).1
      = Res.ok { Ip := "[fe80::a8bb:ccff:fe00:1%enp1s0]", Port := 8085 } ∧
    "[fe80::a8bb:ccff:fe00:1%enp1s0]" ≠ IPv6AddrDpu := by
  decide

/-- C5 (amended): when the device resolves to an interface name, the link-local assignment
succeeds and the interface and its addresses can be read, `dpuIpPort` returns the port
`DefaultPort` (8085) and the address "[a%name]", where `a` is the text of the last address
reported that is not an IPv4 address; it fails with "there is no IPv6 Address" when no such
address is reported or that text is empty. -/
theorem dpuIpPort_endpoint {K : Type} (pl : Platform K) (w w2 : World K) (IfName : String)
    (addrs : List Addr)
    (hname : pl.GetNameByDeviceID DPUdeviceID = (IfName, none))
    (hll : enableIPV6LinkLocal pl IfName IPv6AddrDpu
        (w.note (pl.GetNameByDeviceID DPUdeviceID) (Event.GetNameByDeviceID DPUdeviceID)).2
      = (none, w2))
    (hif : (pl.InterfaceByName w2.kernel IfName).1 = none)
    (haddrs : (pl.InterfaceAddrs (pl.InterfaceByName w2.kernel IfName).2 IfName).1
      = Res.ok addrs) :
    (dpuIpPort pl w).1 =
      match (addrs.filterMap nonIPv4Text).getLast? with
      | none => Res.err (GoError.new "there is no IPv6 Address")
      | some a =>
        if a = "" then Res.err (GoError.new "there is no IPv6 Address")
        else Res.ok { Ip := "[" ++ a ++ "%" ++ IfName ++ "]", Port := DefaultPort } := by
  have hll2 : enableIPV6LinkLocal pl IfName IPv6AddrDpu
      { kernel := w.kernel,
        trace := w.trace ++ [Event.GetNameByDeviceID DPUdeviceID (IfName, none)] }
      = (none, w2) := by
    simpa [World.note, hname] using hll
  simp only [dpuIpPort, World.note, hname, hll2, World.step, hif, haddrs, addrsLoop_eq_last]
  cases h : (List.filterMap nonIPv4Text addrs).getLast? with
  | none => simp
  | some a =>
    by_cases ha : a = ""
    · simp [ha]
    · simp [ha]

/-- C5 (amended) at a concrete interface: the three addresses above, on the example
platform. -/
theorem dpuIpPort_endpoint_witness :
    (dpuIpPort (simPlatform []
        [Addr.IPNet true "10.0.0.1", Addr.IPNet false "fe80::1",
         Addr.IPNet false "fe80::a8bb:ccff:fe00:1"]) simWorld0).1
      = Res.ok { Ip := "[" ++ "fe80::a8bb:ccff:fe00:1" ++ "%" ++ "enp1s0" ++ "]",
                 Port := DefaultPort } :=
  dpuIpPort_endpoint
    (simPlatform []
      [Addr.IPNet true "10.0.0.1", Addr.IPNet false "fe80::1",
       Addr.IPNet false "fe80::a8bb:ccff:fe00:1"])
    simWorld0
    (enableIPV6LinkLocal
      (simPlatform []
        [Addr.IPNet true "10.0.0.1", Addr.IPNet false "fe80::1",
         Addr.IPNet false "fe80::a8bb:ccff:fe00:1"]) "enp1s0" IPv6AddrDpu
      (simWorld0.note ("enp1s0", none) (Event.GetNameByDeviceID DPUdeviceID)).2).2
    "enp1s0"
    [Addr.IPNet true "10.0.0.1", Addr.IPNet false "fe80::1",
     Addr.IPNet false "fe80::a8bb:ccff:fe00:1"]
    rfl rfl rfl rfl


/-! ## C3: the registry after provisioning -/

theorem createVethPair_nil {K : Type} (pl : Platform K) (index : Int)
    (vsp vsp1 : mrvlVspServer) (w w1 : World K)
    (h : createVethPair pl index vsp w = (Outcome.nil, vsp1, w1)) :
    ∃ (nfLink peerLink : Link) (store : List (String × mrvlDeviceInfo)) (evs : List Event),
      vsp.deviceStore = some store ∧
      vsp1.deviceStore = some (mapSet store nfLink.HardwareAddr
        { nfInterfaceName := "nf_interface" ++ toString index
          dpInterfaceName := "dp_interface" ++ toString index
          dpMAC := peerLink.HardwareAddr
          health := "Healthy" }) ∧
      w1.trace = w.trace ++ evs ∧
      Event.LinkByName ("nf_interface" ++ toString index) (Res.ok nfLink) ∈ evs ∧
      Event.LinkByName ("dp_interface" ++ toString index) (Res.ok peerLink) ∈ evs := by
  unfold createVethPair at h
  simp only [World.step] at h
  split at h
  · simp at h
  · rename_i w1a h1
    split at h
    · simp at h
    · rename_i nfLink w2 h2
      split at h
      · simp at h
      · rename_i w3 h3
        split at h
        · simp at h
        · rename_i peerLink w4 h4
          split at h
          · simp at h
          · rename_i w5 h5
            split at h
            · simp at h
            · rename_i store hstore
              simp only [Prod.mk.injEq, true_and] at h
              obtain ⟨hv, hw⟩ := h
              simp only [Prod.mk.injEq] at h1 h2 h3 h4 h5
              obtain ⟨h1a, rfl⟩ := h1
              obtain ⟨h2a, rfl⟩ := h2
              obtain ⟨h3a, rfl⟩ := h3
              obtain ⟨h4a, rfl⟩ := h4
              obtain ⟨h5a, rfl⟩ := h5
              refine ⟨nfLink, peerLink, store,
                [Event.LinkAdd ("nf_interface" ++ toString index)
                    ("dp_interface" ++ toString index) none,
                 Event.LinkByName ("nf_interface" ++ toString index) (Res.ok nfLink),
                 Event.LinkSetUp nfLink none,
                 Event.LinkByName ("dp_interface" ++ toString index) (Res.ok peerLink),
                 Event.LinkSetUp peerLink none], hstore, ?_, ?_, ?_, ?_⟩
              · rw [← hv]
              · subst hw
                dsimp only at h1a h2a h3a h4a h5a ⊢
                rw [h1a, h2a, h3a, h4a, h5a]
                simp only [List.append_assoc, List.singleton_append, List.cons_append,
                  List.nil_append]
              · simp
              · simp

theorem createVethPairs_nil {K : Type} (pl : Platform K) (remaining : Nat) :
    ∀ (i : Nat) (vsp vsp1 : mrvlVspServer) (w w1 : World K),
      createVethPairs pl remaining i vsp w = (Outcome.nil, vsp1, w1) →
      ∃ evs : List Event, w1.trace = w.trace ++ evs ∧
        (∀ store, vsp.deviceStore = some store →
          ∃ store1, vsp1.deviceStore = some store1 ∧
            ∀ key : String,
              (∀ j, j < remaining → ∀ a : Link,
                Event.LinkByName ("nf_interface" ++ toString ((i + j : Nat) : Int)) (Res.ok a)
                  ∈ evs → a.HardwareAddr ≠ key) →
              mapGet store1 key = mapGet store key) ∧
        (∀ j, j < remaining → ∃ nfLink peerLink : Link,
          Event.LinkByName ("nf_interface" ++ toString ((i + j : Nat) : Int)) (Res.ok nfLink)
            ∈ evs ∧
          Event.LinkByName ("dp_interface" ++ toString ((i + j : Nat) : Int)) (Res.ok peerLink)
            ∈ evs ∧
          ((∀ j2, j2 < remaining → j2 ≠ j → ∀ a : Link,
              Event.LinkByName ("nf_interface" ++ toString ((i + j2 : Nat) : Int)) (Res.ok a)
                ∈ evs → a.HardwareAddr ≠ nfLink.HardwareAddr) →
            ∃ store1, vsp1.deviceStore = some store1 ∧
              mapGet store1 nfLink.HardwareAddr
                = some { nfInterfaceName := "nf_interface" ++ toString ((i + j : Nat) : Int)
                         dpInterfaceName := "dp_interface" ++ toString ((i + j : Nat) : Int)
                         dpMAC := peerLink.HardwareAddr
                         health := "Healthy" })) := by
  induction remaining with
  | zero =>
    intro i vsp vsp1 w w1 h
    simp only [createVethPairs, Prod.mk.injEq, true_and] at h
    obtain ⟨rfl, rfl⟩ := h
    refine ⟨[], by simp, ?_, ?_⟩
    · intro store hs
      exact ⟨store, hs, fun _ _ => rfl⟩
    · intro j hj
      exact absurd hj (Nat.not_lt_zero j)
  | succ r ih =>
    intro i vsp vsp1 w w1 h
    unfold createVethPairs at h
    split at h
    · rename_i vspA wA hA
      obtain ⟨nf0, peer0, store0, evs0, hs0, hsA, htA, hnf0, hdp0⟩ :=
        createVethPair_nil pl _ _ _ _ _ hA
      obtain ⟨evs1, ht1, hframe, hentries⟩ := ih (i + 1) vspA vsp1 wA w1 h
      obtain ⟨store1, hs1, hkeep⟩ := hframe _ hsA
      have hidx : ∀ j : Nat, i + 1 + j = i + (j + 1) := fun j => by omega
      refine ⟨evs0 ++ evs1, by rw [ht1, htA, List.append_assoc], ?_, ?_⟩
      · intro store hs
        rw [hs0] at hs
        cases hs
        refine ⟨store1, hs1, ?_⟩
        intro key hkey
        have hk0 : nf0.HardwareAddr ≠ key :=
          hkey 0 (Nat.succ_pos r) nf0 (List.mem_append_left _ hnf0)
        rw [hkeep key, mapGet_mapSet_other _ _ _ _ hk0]
        intro j hj a ha
        rw [hidx] at ha
        exact hkey (j + 1) (Nat.succ_lt_succ hj) a (List.mem_append_right _ ha)
      · intro j hj
        cases j with
        | zero =>
          refine ⟨nf0, peer0, List.mem_append_left _ hnf0, List.mem_append_left _ hdp0, ?_⟩
          intro hdist
          refine ⟨store1, hs1, ?_⟩
          rw [hkeep nf0.HardwareAddr, mapGet_mapSet_same]
          · rfl
          · intro j2 hj2 a ha
            rw [hidx] at ha
            exact hdist (j2 + 1) (Nat.succ_lt_succ hj2) (Nat.succ_ne_zero j2) a
              (List.mem_append_right _ ha)
        | succ j0 =>
          obtain ⟨nfL, peerL, hnfL, hdpL, hget⟩ := hentries j0 (Nat.lt_of_succ_lt_succ hj)
          rw [hidx] at hnfL hdpL hget
          refine ⟨nfL, peerL, List.mem_append_right _ hnfL, List.mem_append_right _ hdpL, ?_⟩
          intro hdist
          apply hget
          intro j2 hj2 hne a ha
          rw [hidx] at ha
          exact hdist (j2 + 1) (Nat.succ_lt_succ hj2) (fun e => hne (Nat.succ.inj e)) a
            (List.mem_append_right _ ha)
    · simp at h
    · simp at h

/-- C3 (as stated, refuted): after `ConfigureNetworkInterface` has provisioned its two
pairs on the example platform, the peer `dp_interface0` has the hardware address
`02:00:00:00:00:03`, the registry holds nothing under that key, and the entry of pair 0 is
stored under `02:00:00:00:00:02`, the hardware address of `nf_interface0`. -/
theorem ConfigureNetworkInterface_entry_not_under_peer_MAC :
    (ConfigureNetworkInterface (simPlatform [] []) NewMarvellVspServer simWorld0).1
      = Outcome.nil ∧
    (simLinkByName
        (ConfigureNetworkInterface (simPlatform [] []) NewMarvellVspServer simWorld0).2.2.kernel
        "dp_interface0").1
      = Res.ok { Index := 3, Name := "dp_interface0", HardwareAddr := "02:00:00:00:00:03",
                 FlagUp := true } ∧
    (simLinkByName
        (ConfigureNetworkInterface (simPlatform [] []) NewMarvellVspServer simWorld0).2.2.kernel
        "nf_interface0").1
      = Res.ok { Index := 2, Name := "nf_interface0", HardwareAddr := "02:00:00:00:00:02",
                 FlagUp := true } ∧
    (ConfigureNetworkInterface (simPlatform [] []) NewMarvellVspServer simWorld0).2.1.deviceStore
      = some [("02:00:00:00:00:02",
                { nfInterfaceName := "nf_interface0", dpInterfaceName := "dp_interface0",
                  dpMAC := "02:00:00:00:00:03", health := "Healthy" }),
              ("02:00:00:00:00:04",
                { nfInterfaceName := "nf_interface1", dpInterfaceName := "dp_interface1",
                  dpMAC := "02:00:00:00:00:05", health := "Healthy" })] ∧
    ((ConfigureNetworkInterface (simPlatform [] []) NewMarvellVspServer
        simWorld0).2.1.deviceStore.bind (fun store => mapGet store "02:00:00:00:00:03"))
      = none := by
  decide

/-- C3 (amended): when provisioning `n` pairs succeeds and the hardware addresses that the
kernel reported for `nf_interface0`, ..., `nf_interface<n-1>` are pairwise distinct, then for
every `i < n` the registry holds, under the hardware address reported for `nf_interface<i>`,
the entry with names `nf_interface<i>` and `dp_interface<i>`, with `dpMAC` the hardware
address reported for the peer `dp_interface<i>`, and with health "Healthy". -/
theorem ConfigureNetworkInterface_registry {K : Type} (pl : Platform K) (n : Nat)
    (vsp vsp1 : mrvlVspServer) (w w1 : World K)
    (hrun : ConfigureNetworkInterfaceWith pl "veth" (n : Int) vsp w = (Outcome.nil, vsp1, w1))
    (hdistinct : ∀ i j : Nat, i < n → j < n → i ≠ j → ∀ a b : Link,
      Event.LinkByName ("nf_interface" ++ toString (i : Int)) (Res.ok a) ∈ newEvents w w1 →
      Event.LinkByName ("nf_interface" ++ toString (j : Int)) (Res.ok b) ∈ newEvents w w1 →
      a.HardwareAddr ≠ b.HardwareAddr) :
    ∀ i : Nat, i < n → ∃ (nfLink peerLink : Link) (store : List (String × mrvlDeviceInfo)),
      Event.LinkByName ("nf_interface" ++ toString (i : Int)) (Res.ok nfLink)
        ∈ newEvents w w1 ∧
      Event.LinkByName ("dp_interface" ++ toString (i : Int)) (Res.ok peerLink)
        ∈ newEvents w w1 ∧
      vsp1.deviceStore = some store ∧
      mapGet store nfLink.HardwareAddr
        = some { nfInterfaceName := "nf_interface" ++ toString (i : Int)
                 dpInterfaceName := "dp_interface" ++ toString (i : Int)
                 dpMAC := peerLink.HardwareAddr
                 health := "Healthy" } := by
  intro i hi
  simp only [ConfigureNetworkInterfaceWith, if_true, Int.toNat_ofNat] at hrun
  obtain ⟨evs, ht, -, hentries⟩ := createVethPairs_nil pl n 0 _ _ _ _ hrun
  have hnew : newEvents w w1 = evs := by
    simp [newEvents, ht]
  rw [hnew] at hdistinct ⊢
  obtain ⟨nfLink, peerLink, hnf, hdp, hget⟩ := hentries i hi
  simp only [Nat.zero_add] at hnf hdp hget
  have hothers : ∀ j2, j2 < n → j2 ≠ i → ∀ a : Link,
      Event.LinkByName ("nf_interface" ++ toString (j2 : Int)) (Res.ok a) ∈ evs →
        a.HardwareAddr ≠ nfLink.HardwareAddr := by
    intro j2 hj2 hne a ha
    exact hdistinct j2 i hj2 hi hne a nfLink ha hnf
  obtain ⟨store, hs, hm⟩ := hget hothers
  exact ⟨nfLink, peerLink, store, hnf, hdp, hs, hm⟩

/-- C3 (amended) on the example platform: `ConfigureNetworkInterface` provisions its two
pairs, the kernel reports four different hardware addresses, and both entries are found
under the address of their `nf_interface`. -/
theorem ConfigureNetworkInterface_registry_witness :
    (ConfigureNetworkInterface (simPlatform [] []) NewMarvellVspServer simWorld0).1
      = Outcome.nil ∧
    (∃ (nfLink peerLink : Link) (store : List (String × mrvlDeviceInfo)),
      Event.LinkByName ("nf_interface" ++ toString ((0 : Nat) : Int)) (Res.ok nfLink)
        ∈ newEvents simWorld0
          (ConfigureNetworkInterface (simPlatform [] []) NewMarvellVspServer simWorld0).2.2 ∧
      Event.LinkByName ("dp_interface" ++ toString ((0 : Nat) : Int)) (Res.ok peerLink)
        ∈ newEvents simWorld0
          (ConfigureNetworkInterface (simPlatform [] []) NewMarvellVspServer simWorld0).2.2 ∧
      (ConfigureNetworkInterface (simPlatform [] []) NewMarvellVspServer
        simWorld0).2.1.deviceStore = some store ∧
      mapGet store nfLink.HardwareAddr
        = some { nfInterfaceName := "nf_interface" ++ toString ((0 : Nat) : Int)
                 dpInterfaceName := "dp_interface" ++ toString ((0 : Nat) : Int)
                 dpMAC := peerLink.HardwareAddr
                 health := "Healthy" }) ∧
    (∃ (nfLink peerLink : Link) (store : List (String × mrvlDeviceInfo)),
      Event.LinkByName ("nf_interface" ++ toString ((1 : Nat) : Int)) (Res.ok nfLink)
        ∈ newEvents simWorld0
          (ConfigureNetworkInterface (simPlatform [] []) NewMarvellVspServer simWorld0).2.2 ∧
      Event.LinkByName ("dp_interface" ++ toString ((1 : Nat) : Int)) (Res.ok peerLink)
        ∈ newEvents simWorld0
          (ConfigureNetworkInterface (simPlatform [] []) NewMarvellVspServer simWorld0).2.2 ∧
      (ConfigureNetworkInterface (simPlatform [] []) NewMarvellVspServer
        simWorld0).2.1.deviceStore = some store ∧
      mapGet store nfLink.HardwareAddr
        = some { nfInterfaceName := "nf_interface" ++ toString ((1 : Nat) : Int)
                 dpInterfaceName := "dp_interface" ++ toString ((1 : Nat) : Int)
                 dpMAC := peerLink.HardwareAddr
                 health := "Healthy" }) := by
  have both :=
    ConfigureNetworkInterface_registry (simPlatform [] []) 2 NewMarvellVspServer
      (ConfigureNetworkInterface (simPlatform [] []) NewMarvellVspServer simWorld0).2.1
      simWorld0
      (ConfigureNetworkInterface (simPlatform [] []) NewMarvellVspServer simWorld0).2.2
      (by decide)
      (by
        have hev : newEvents simWorld0
            (ConfigureNetworkInterface (simPlatform [] []) NewMarvellVspServer simWorld0).2.2
            = [Event.LinkAdd "nf_interface0" "dp_interface0" none,
               Event.LinkByName "nf_interface0" (Res.ok ⟨2, "nf_interface0", "02:00:00:00:00:02", false⟩),
               Event.LinkSetUp ⟨2, "nf_interface0", "02:00:00:00:00:02", false⟩ none,
               Event.LinkByName "dp_interface0" (Res.ok ⟨3, "dp_interface0", "02:00:00:00:00:03", false⟩),
               Event.LinkSetUp ⟨3, "dp_interface0", "02:00:00:00:00:03", false⟩ none,
               Event.LinkAdd "nf_interface1" "dp_interface1" none,
               Event.LinkByName "nf_interface1" (Res.ok ⟨4, "nf_interface1", "02:00:00:00:00:04", false⟩),
               Event.LinkSetUp ⟨4, "nf_interface1", "02:00:00:00:00:04", false⟩ none,
               Event.LinkByName "dp_interface1" (Res.ok ⟨5, "dp_interface1", "02:00:00:00:00:05", false⟩),
               Event.LinkSetUp ⟨5, "dp_interface1", "02:00:00:00:00:05", false⟩ none] := by
          decide
        have e0 : "nf_interface" ++ toString ((0 : Nat) : Int) = "nf_interface0" := by decide
        have e1 : "nf_interface" ++ toString ((1 : Nat) : Int) = "nf_interface1" := by decide
        intro i j hi hj hne a b ha hb
        rw [hev] at ha hb
        interval_cases i <;> interval_cases j
        · exact absurd rfl hne
        · rw [e0] at ha
          rw [e1] at hb
          simp at ha hb
          rw [ha, hb]
          decide
        · rw [e1] at ha
          rw [e0] at hb
          simp at ha hb
          rw [ha, hb]
          decide
        · exact absurd rfl hne)
  exact ⟨by decide, both 0 (by decide), both 1 (by decide)⟩


/-! ## C13: errors of the teardown are joined -/

theorem foldl_errorsJoin_ne_none (l : List GoError) (acc : Option GoError) (h : acc ≠ none) :
    l.foldl (fun a e => errorsJoin a (some e)) acc ≠ none := by
  induction l generalizing acc with
  | nil => simpa using h
  | cons e rest ih =>
    apply ih
    cases acc <;> simp [errorsJoin]

theorem foldl_errorsJoin_eq_none_iff (l : List GoError) :
    l.foldl (fun a e => errorsJoin a (some e)) none = none ↔ l = [] := by
  cases l with
  | nil => simp
  | cons e rest =>
    constructor
    · intro h
      exact absurd h (foldl_errorsJoin_ne_none rest _ (by simp [errorsJoin]))
    · intro h
      cases h

theorem cleanLoop_spec {K : Type} (pl : Platform K) (store : List (String × mrvlDeviceInfo)) :
    ∀ (acc : Option GoError) (w : World K), ∃ evs : List Event,
      (cleanLoop pl store acc w).2.trace = w.trace ++ evs ∧
      evs.filterMap lookedUp = store.map (fun kv => kv.2.nfInterfaceName) ∧
      evs.filterMap deletionOf = evs.filterMap found ∧
      (cleanLoop pl store acc w).1
        = (evs.filterMap failureOf).foldl (fun a e => errorsJoin a (some e)) acc := by
  induction store with
  | nil =>
    intro acc w
    exact ⟨[], by simp [cleanLoop]⟩
  | cons entry rest ih =>
    intro acc w
    obtain ⟨key, info⟩ := entry
    rcases hr : pl.LinkByName w.kernel info.nfInterfaceName with ⟨res, k1⟩
    cases res with
    | err e =>
      obtain ⟨evs, ht, hl, hd, hres⟩ := ih (errorsJoin acc (some e))
        { kernel := k1,
          trace := w.trace ++ [Event.LinkByName info.nfInterfaceName (Res.err e)] }
      refine ⟨Event.LinkByName info.nfInterfaceName (Res.err e) :: evs, ?_, ?_, ?_, ?_⟩
      · simp only [cleanLoop, World.step, hr]
        rw [ht]
        simp
      · simp [lookedUp, hl]
      · simp [deletionOf, found, hd]
      · simp only [cleanLoop, World.step, hr]
        rw [hres]
        simp [failureOf]
    | ok link =>
      rcases hdel : pl.LinkDel k1 link with ⟨r, k2⟩
      cases r with
      | some e =>
        obtain ⟨evs, ht, hl, hd, hres⟩ := ih (errorsJoin acc (some e))
          { kernel := k2,
            trace := w.trace ++ [Event.LinkByName info.nfInterfaceName (Res.ok link)]
              ++ [Event.LinkDel link (some e)] }
        refine ⟨Event.LinkByName info.nfInterfaceName (Res.ok link)
          :: Event.LinkDel link (some e) :: evs, ?_, ?_, ?_, ?_⟩
        · simp only [cleanLoop, World.step, hr, hdel]
          rw [ht]
          simp
        · simp [lookedUp, hl]
        · simp [deletionOf, found, hd]
        · simp only [cleanLoop, World.step, hr, hdel]
          rw [hres]
          simp [failureOf]
      | none =>
        obtain ⟨evs, ht, hl, hd, hres⟩ := ih acc
          { kernel := k2,
            trace := w.trace ++ [Event.LinkByName info.nfInterfaceName (Res.ok link)]
              ++ [Event.LinkDel link none] }
        refine ⟨Event.LinkByName info.nfInterfaceName (Res.ok link)
          :: Event.LinkDel link none :: evs, ?_, ?_, ?_, ?_⟩
        · simp only [cleanLoop, World.step, hr, hdel]
          rw [ht]
          simp
        · simp [lookedUp, hl]
        · simp [deletionOf, found, hd]
        · simp only [cleanLoop, World.step, hr, hdel]
          rw [hres]
          simp [failureOf]

theorem CleanVethPairs_spec {K : Type} (pl : Platform K) (vsp : mrvlVspServer) (w : World K) :
    ∃ evs : List Event,
      (CleanVethPairs pl vsp w).2.2.trace = w.trace ++ evs ∧
      evs.filterMap lookedUp = (registryEntries vsp).map (fun kv => kv.2.nfInterfaceName) ∧
      evs.filterMap deletionOf = evs.filterMap found ∧
      (CleanVethPairs pl vsp w).1
        = (evs.filterMap failureOf).foldl (fun a e => errorsJoin a (some e)) none ∧
      (CleanVethPairs pl vsp w).2.1.deviceStore = none := by
  cases hs : vsp.deviceStore with
  | none => exact ⟨[], by simp [CleanVethPairs, hs, registryEntries]⟩
  | some store =>
    obtain ⟨evs, ht, hl, hd, hres⟩ := cleanLoop_spec pl store none w
    exact ⟨evs, by simp [CleanVethPairs, hs, ht], by simp [registryEntries, hs, hl], hd,
      by simp [CleanVethPairs, hs, hres], by simp [CleanVethPairs, hs]⟩

/-- C13: whatever the registry and whichever lookups and deletions fail, `CleanVethPairs`
looks up every entry of the registry, in turn; attempts a deletion for every link found;
returns the join, in turn, of the errors of all failed lookups and deletions, which is nil
exactly when none failed; and leaves the registry nil. `Stop` begins with `DeleteDataplane`
and, whatever that returns, looks up every entry as well and leaves the registry nil. -/
theorem CleanVethPairs_aggregates {K : Type} (pl : Platform K) (vsp : mrvlVspServer)
    (w : World K) :
    (newEvents w (CleanVethPairs pl vsp w).2.2).filterMap lookedUp
      = (registryEntries vsp).map (fun kv => kv.2.nfInterfaceName) ∧
    (newEvents w (CleanVethPairs pl vsp w).2.2).filterMap deletionOf
      = (newEvents w (CleanVethPairs pl vsp w).2.2).filterMap found ∧
    (CleanVethPairs pl vsp w).1
      = ((newEvents w (CleanVethPairs pl vsp w).2.2).filterMap failureOf).foldl
          (fun a e => errorsJoin a (some e)) none ∧
    ((CleanVethPairs pl vsp w).1 = none ↔
      (newEvents w (CleanVethPairs pl vsp w).2.2).filterMap failureOf = []) ∧
    (CleanVethPairs pl vsp w).2.1.deviceStore = none ∧
    (newEvents w (stopTeardown pl vsp w).2).head?
      = some (Event.DeleteDataplane vsp.bridgeName
          (pl.DeleteDataplane w.kernel vsp.bridgeName).1) ∧
    (newEvents w (stopTeardown pl vsp w).2).filterMap lookedUp
      = (registryEntries vsp).map (fun kv => kv.2.nfInterfaceName) ∧
    (stopTeardown pl vsp w).1.deviceStore = none := by
  obtain ⟨evs, ht, hl, hd, hres, hnil⟩ := CleanVethPairs_spec pl vsp w
  have hnew : newEvents w (CleanVethPairs pl vsp w).2.2 = evs := by
    simp [newEvents, ht]
  obtain ⟨evs2, ht2, hl2, -, -, hnil2⟩ := CleanVethPairs_spec pl vsp
    (w.step (pl.DeleteDataplane w.kernel vsp.bridgeName)
      (Event.DeleteDataplane vsp.bridgeName)).2
  have hstop : newEvents w (stopTeardown pl vsp w).2
      = Event.DeleteDataplane vsp.bridgeName (pl.DeleteDataplane w.kernel vsp.bridgeName).1
          :: (evs2 ++ [Event.GrpcServerStop]) := by
    simp only [newEvents, stopTeardown, ht2]
    simp [World.step]
  rw [hnew, hstop]
  refine ⟨hl, hd, hres, ?_, hnil, rfl, ?_, ?_⟩
  · rw [hres]
    exact foldl_errorsJoin_eq_none_iff _
  · simp [lookedUp, hl2]
  · simpa [stopTeardown] using hnil2


/-! ## C14: a pair that fails half-way -/

/-- C14 (the code at the failing input): the kernel creates both pairs but refuses to set
`nf_interface1` up. `Init` in DPU mode then calls `Stop` and is to return the empty endpoint
with that error, the registry is nil, `InitDataPlane` was never called, and the only
deletion attempted was that of `nf_interface0`: the links `nf_interface1` and
`dp_interface1`, created for the failing pair, are still in the kernel. -/
theorem Init_leaves_links_of_failing_pair :
    (Init simPlatformSetUpFails NewMarvellVspServer true simWorld0).1
      = InitReturn.afterStop {} (some (GoError.new "operation not permitted")) ∧
    (Init simPlatformSetUpFails NewMarvellVspServer true simWorld0).2.1.deviceStore = none ∧
    Event.LinkAdd "nf_interface1" "dp_interface1" none
      ∈ (Init simPlatformSetUpFails NewMarvellVspServer true simWorld0).2.2.trace ∧
    ((Init simPlatformSetUpFails NewMarvellVspServer true simWorld0).2.2.trace.filterMap
        deletionOf).map (fun link => link.Name) = ["nf_interface0"] ∧
    (Init simPlatformSetUpFails NewMarvellVspServer true simWorld0).2.2.trace.filterMap
        dataplaneInitOf = [] ∧
    (Init simPlatformSetUpFails NewMarvellVspServer true simWorld0).2.2.kernel.links.map
        (fun l => l.1.Name) = ["enp1s0", "nf_interface1", "dp_interface1"] := by
  decide

/-! ## The statements of `Stop` before its send -/

theorem CleanVethPairs_server {K : Type} (pl : Platform K) (vsp : mrvlVspServer)
    (w : World K) : (CleanVethPairs pl vsp w).2.1 = { vsp with deviceStore := none } := by
  cases hs : vsp.deviceStore with
  | none =>
    simp only [CleanVethPairs, hs]
    cases vsp
    simp_all
  | some store => simp [CleanVethPairs, hs]

theorem stopTeardown_spec {K : Type} (pl : Platform K) (vsp : mrvlVspServer) (w : World K) :
    (stopTeardown pl vsp w).1 = { vsp with deviceStore := none } ∧
    (stopTeardown pl vsp w).2.trace
      = w.trace ++ Event.DeleteDataplane vsp.bridgeName
          (pl.DeleteDataplane w.kernel vsp.bridgeName).1
        :: (newEvents
              (w.step (pl.DeleteDataplane w.kernel vsp.bridgeName)
                (Event.DeleteDataplane vsp.bridgeName)).2
              (CleanVethPairs pl vsp
                (w.step (pl.DeleteDataplane w.kernel vsp.bridgeName)
                  (Event.DeleteDataplane vsp.bridgeName)).2).2.2
            ++ [Event.GrpcServerStop]) := by
  obtain ⟨evs, ht, -⟩ := CleanVethPairs_spec pl vsp
    (w.step (pl.DeleteDataplane w.kernel vsp.bridgeName)
      (Event.DeleteDataplane vsp.bridgeName)).2
  refine ⟨by simp [stopTeardown, CleanVethPairs_server], ?_⟩
  simp only [stopTeardown, newEvents, ht]
  simp [World.step]

/-! ## C1: `GetDevices` and the nil registry -/

/-- C1 (as stated, refuted): on the server that `NewMarvellVspServer` builds, before any
`Init`, `GetDevices` returns an empty device list and a nil error, not an error. -/
theorem GetDevices_fresh_server_succeeds :
    (GetDevices (simPlatform [] []) NewMarvellVspServer simWorld0).1 = Res.ok [] ∧
    ¬ ∃ e, (GetDevices (simPlatform [] []) NewMarvellVspServer simWorld0).1 = Res.err e := by
  have h : (GetDevices (simPlatform [] []) NewMarvellVspServer simWorld0).1 = Res.ok [] := by
    decide
  refine ⟨h, ?_⟩
  rintro ⟨e, he⟩
  rw [h] at he
  cases he

theorem Init_afterStop_registry {K : Type} (pl : Platform K) (vsp : mrvlVspServer)
    (inDpuMode : Bool) (w : World K) (ipPort : IpPort) (err : Option GoError)
    (h : (Init pl vsp inDpuMode w).1 = InitReturn.afterStop ipPort err) :
    (Init pl vsp inDpuMode w).2.1.deviceStore = none := by
  cases inDpuMode with
  | false => simp [Init] at h
  | true =>
    unfold Init at h ⊢
    simp only [if_true] at h ⊢
    split
    · simp [(stopTeardown_spec pl _ _).1]
    · rename_i heq
      rw [heq] at h
      simp at h
    · split
      · simp [(stopTeardown_spec pl _ _).1]
      · rename_i hcfg _ _ hinit
        rw [hcfg] at h
        simp only at h
        rw [hinit] at h
        simp at h

/-- C1 (amended): `GetDevices` returns the error "device Store is empty" and no device
list, issuing no call, when the registry is nil, and a device list and no error when it is
not. On the server that `NewMarvellVspServer` builds the registry is an empty map that is
not nil, so there `GetDevices` returns the empty device list and no error, issuing no call.
After an `Init` that failed in provisioning or in `InitDataPlane`, and so went through `Stop`,
the registry is nil and `GetDevices` returns the error. -/
theorem GetDevices_error_iff_nil_store {K : Type} (pl : Platform K) (vsp : mrvlVspServer)
    (w : World K) :
    (vsp.deviceStore = none →
      GetDevices pl vsp w = (Res.err (GoError.new "device Store is empty"), w)) ∧
    (vsp.deviceStore ≠ none → ∃ devices, (GetDevices pl vsp w).1 = Res.ok devices) ∧
    (NewMarvellVspServer.deviceStore = some [] ∧
      GetDevices pl NewMarvellVspServer w = (Res.ok [], w)) ∧
    (∀ (inDpuMode : Bool) (ipPort : IpPort) (err : Option GoError) (w1 : World K),
      (Init pl vsp inDpuMode w).1 = InitReturn.afterStop ipPort err →
      (Init pl vsp inDpuMode w).2.1.deviceStore = none ∧
      GetDevices pl (Init pl vsp inDpuMode w).2.1 w1
        = (Res.err (GoError.new "device Store is empty"), w1)) := by
  have hnil : ∀ (v : mrvlVspServer) (x : World K), v.deviceStore = none →
      GetDevices pl v x = (Res.err (GoError.new "device Store is empty"), x) := by
    intro v x h
    simp [GetDevices, h]
  refine ⟨hnil vsp w, ?_, ?_, ?_⟩
  · intro h
    cases hs : vsp.deviceStore with
    | none => exact absurd hs h
    | some store => exact ⟨(devicesLoop pl vsp store [] w).1, by simp [GetDevices, hs]⟩
  · exact ⟨rfl, by simp [GetDevices, NewMarvellVspServer, devicesLoop]⟩
  · intro inDpuMode ipPort err w1 h
    exact ⟨Init_afterStop_registry pl vsp inDpuMode w ipPort err h,
      hnil _ _ (Init_afterStop_registry pl vsp inDpuMode w ipPort err h)⟩

/-- C1 (amended) at two reachable states: the fresh server after `CleanVethPairs`, and the
fresh server after the `Init` in DPU mode that fails on the platform refusing to set
`nf_interface1` up. -/
theorem GetDevices_error_iff_nil_store_witness :
    ((CleanVethPairs (simPlatform [] []) NewMarvellVspServer simWorld0).2.1.deviceStore = none ∧
      GetDevices (simPlatform [] [])
          (CleanVethPairs (simPlatform [] []) NewMarvellVspServer simWorld0).2.1 simWorld0
        = (Res.err (GoError.new "device Store is empty"), simWorld0)) ∧
    ((Init simPlatformSetUpFails NewMarvellVspServer true simWorld0).1
        = InitReturn.afterStop {} (some (GoError.new "operation not permitted")) ∧
      (Init simPlatformSetUpFails NewMarvellVspServer true simWorld0).2.1.deviceStore = none ∧
      GetDevices simPlatformSetUpFails
          (Init simPlatformSetUpFails NewMarvellVspServer true simWorld0).2.1 simWorld0
        = (Res.err (GoError.new "device Store is empty"), simWorld0)) :=
  ⟨⟨by decide,
    (GetDevices_error_iff_nil_store (simPlatform [] [])
      (CleanVethPairs (simPlatform [] []) NewMarvellVspServer simWorld0).2.1 simWorld0).1
      (by decide)⟩,
   ⟨by decide,
    (GetDevices_error_iff_nil_store simPlatformSetUpFails NewMarvellVspServer
      simWorld0).2.2.2 true {} (some (GoError.new "operation not permitted")) simWorld0
      (by decide)⟩⟩

/-! ## Every call only adds to the trace -/

theorem trace_of_eq {K α : Type} {x : α × World K} {a : α} {w w1 : World K}
    (hp : w.trace <+: x.2.trace) (h : x = (a, w1)) : w.trace <+: w1.trace := by
  subst h
  exact hp

theorem enableIPV6LinkLocal_trace {K : Type} (pl : Platform K) (ifname addr : String)
    (w : World K) : w.trace <+: (enableIPV6LinkLocal pl ifname addr w).2.trace := by
  simp only [enableIPV6LinkLocal, execRun, World.step]
  split
  · rename_i h
    simp only [Prod.mk.injEq] at h
    obtain ⟨-, rfl⟩ := h
    simp [List.append_assoc]
  · rename_i h
    simp only [Prod.mk.injEq] at h
    obtain ⟨-, rfl⟩ := h
    split
    · rename_i h
      simp only [Prod.mk.injEq] at h
      obtain ⟨-, rfl⟩ := h
      simp [List.append_assoc]
    · rename_i h
      simp only [Prod.mk.injEq] at h
      obtain ⟨-, rfl⟩ := h
      simp [List.append_assoc]

theorem getNeighbourIPs_trace {K : Type} (pl : Platform K) (ifname : String) (w : World K) :
    w.trace <+: (getNeighbourIPs pl ifname w).2.trace := by
  simp only [getNeighbourIPs, World.step]
  split
  · rename_i h
    simp only [Prod.mk.injEq] at h
    obtain ⟨-, rfl⟩ := h
    simp
  · rename_i h
    simp only [Prod.mk.injEq] at h
    obtain ⟨-, rfl⟩ := h
    split
    · rename_i h
      simp only [Prod.mk.injEq] at h
      obtain ⟨-, rfl⟩ := h
      simp [List.append_assoc]
    · rename_i h
      simp only [Prod.mk.injEq] at h
      obtain ⟨-, rfl⟩ := h
      split <;> simp [List.append_assoc]

theorem hostIpPort_trace {K : Type} (pl : Platform K) (w : World K) :
    w.trace <+: (hostIpPort pl w).2.trace := by
  simp only [hostIpPort, World.note]
  split
  · rename_i h
    simp only [Prod.mk.injEq] at h
    obtain ⟨-, rfl⟩ := h
    simp
  · rename_i h
    simp only [Prod.mk.injEq] at h
    obtain ⟨-, rfl⟩ := h
    split
    · rename_i h
      have h1 := trace_of_eq (enableIPV6LinkLocal_trace pl _ _ _) h
      exact List.IsPrefix.trans (List.prefix_append _ _) h1
    · rename_i h
      have h1 := trace_of_eq (enableIPV6LinkLocal_trace pl _ _ _) h
      have h0 := List.IsPrefix.trans (List.prefix_append _ _) h1
      split
      · rename_i h2
        have h3 := trace_of_eq (getNeighbourIPs_trace pl _ _) h2
        exact List.IsPrefix.trans h0 h3
      · rename_i h2
        have h3 := trace_of_eq (getNeighbourIPs_trace pl _ _) h2
        exact List.IsPrefix.trans h0 h3

theorem dpuIpPort_trace {K : Type} (pl : Platform K) (w : World K) :
    w.trace <+: (dpuIpPort pl w).2.trace := by
  simp only [dpuIpPort, World.note, World.step]
  split
  · rename_i h
    simp only [Prod.mk.injEq] at h
    obtain ⟨-, rfl⟩ := h
    simp
  · rename_i h
    simp only [Prod.mk.injEq] at h
    obtain ⟨-, rfl⟩ := h
    split
    · rename_i h
      have h1 := trace_of_eq (enableIPV6LinkLocal_trace pl _ _ _) h
      exact List.IsPrefix.trans (List.prefix_append _ _) h1
    · rename_i h
      have h1 := trace_of_eq (enableIPV6LinkLocal_trace pl _ _ _) h
      have h0 := List.IsPrefix.trans (List.prefix_append _ _) h1
      split
      · rename_i h2
        simp only [Prod.mk.injEq] at h2
        obtain ⟨-, rfl⟩ := h2
        refine List.IsPrefix.trans h0 ?_
        simp
      · rename_i h2
        simp only [Prod.mk.injEq] at h2
        obtain ⟨-, rfl⟩ := h2
        split
        · rename_i h3
          simp only [Prod.mk.injEq] at h3
          obtain ⟨-, rfl⟩ := h3
          refine List.IsPrefix.trans h0 ?_
          simp [List.append_assoc]
        · rename_i h3
          simp only [Prod.mk.injEq] at h3
          obtain ⟨-, rfl⟩ := h3
          split <;> (refine List.IsPrefix.trans h0 ?_; simp [List.append_assoc])

theorem fetchIP_trace {K : Type} (pl : Platform K) (dpuMode : Bool) (w : World K) :
    w.trace <+: (fetchIP pl dpuMode w).2.trace := by
  unfold fetchIP
  split
  · exact dpuIpPort_trace pl w
  · exact hostIpPort_trace pl w

theorem trace_of_eq3 {K α β : Type} {x : α × β × World K} {a : α} {b : β} {w w1 : World K}
    (hp : w.trace <+: x.2.2.trace) (h : x = (a, b, w1)) : w.trace <+: w1.trace := by
  subst h
  exact hp

theorem createVethPair_trace {K : Type} (pl : Platform K) (index : Int)
    (vsp : mrvlVspServer) (w : World K) :
    w.trace <+: (createVethPair pl index vsp w).2.2.trace := by
  simp only [createVethPair, World.step]
  split
  · rename_i h
    simp only [Prod.mk.injEq] at h
    obtain ⟨-, rfl⟩ := h
    simp
  · rename_i h
    simp only [Prod.mk.injEq] at h
    obtain ⟨-, rfl⟩ := h
    split
    · rename_i h
      simp only [Prod.mk.injEq] at h
      obtain ⟨-, rfl⟩ := h
      simp [List.append_assoc]
    · rename_i h
      simp only [Prod.mk.injEq] at h
      obtain ⟨-, rfl⟩ := h
      split
      · rename_i h
        simp only [Prod.mk.injEq] at h
        obtain ⟨-, rfl⟩ := h
        simp [List.append_assoc]
      · rename_i h
        simp only [Prod.mk.injEq] at h
        obtain ⟨-, rfl⟩ := h
        split
        · rename_i h
          simp only [Prod.mk.injEq] at h
          obtain ⟨-, rfl⟩ := h
          simp [List.append_assoc]
        · rename_i h
          simp only [Prod.mk.injEq] at h
          obtain ⟨-, rfl⟩ := h
          split
          · rename_i h
            simp only [Prod.mk.injEq] at h
            obtain ⟨-, rfl⟩ := h
            simp [List.append_assoc]
          · rename_i h
            simp only [Prod.mk.injEq] at h
            obtain ⟨-, rfl⟩ := h
            split <;> simp [List.append_assoc]

theorem CleanVethPairs_trace {K : Type} (pl : Platform K) (vsp : mrvlVspServer)
    (w : World K) : w.trace <+: (CleanVethPairs pl vsp w).2.2.trace := by
  obtain ⟨evs, ht, -⟩ := CleanVethPairs_spec pl vsp w
  rw [ht]
  exact List.prefix_append _ _

theorem stopTeardown_trace {K : Type} (pl : Platform K) (vsp : mrvlVspServer)
    (w : World K) : w.trace <+: (stopTeardown pl vsp w).2.trace := by
  rw [(stopTeardown_spec pl vsp w).2]
  exact List.prefix_append _ _

theorem createVethPairs_trace {K : Type} (pl : Platform K) (remaining : Nat) :
    ∀ (i : Nat) (vsp : mrvlVspServer) (w : World K),
      w.trace <+: (createVethPairs pl remaining i vsp w).2.2.trace := by
  induction remaining with
  | zero =>
    intro i vsp w
    simp [createVethPairs]
  | succ r ih =>
    intro i vsp w
    unfold createVethPairs
    split
    · rename_i h
      exact List.IsPrefix.trans (trace_of_eq3 (createVethPair_trace pl _ _ _) h) (ih _ _ _)
    · rename_i h
      exact List.IsPrefix.trans (trace_of_eq3 (createVethPair_trace pl _ _ _) h)
        (CleanVethPairs_trace pl _ _)
    · rename_i h
      exact trace_of_eq3 (createVethPair_trace pl _ _ _) h

theorem ConfigureNetworkInterface_trace {K : Type} (pl : Platform K) (vsp : mrvlVspServer)
    (w : World K) : w.trace <+: (ConfigureNetworkInterface pl vsp w).2.2.trace := by
  simp only [ConfigureNetworkInterface, ConfigureNetworkInterfaceWith]
  split
  · exact createVethPairs_trace pl _ _ _ _
  · split
    · split <;> exact List.prefix_refl _
    · exact List.prefix_refl _

theorem Init_trace {K : Type} (pl : Platform K) (vsp : mrvlVspServer) (inDpuMode : Bool)
    (w : World K) : w.trace <+: (Init pl vsp inDpuMode w).2.2.trace := by
  have hf := fetchIP_trace pl inDpuMode w
  unfold Init
  simp only
  split
  · split
    · rename_i h
      exact List.IsPrefix.trans
        (List.IsPrefix.trans hf (trace_of_eq3 (ConfigureNetworkInterface_trace pl _ _) h))
        (stopTeardown_trace pl _ _)
    · rename_i h
      exact List.IsPrefix.trans hf (trace_of_eq3 (ConfigureNetworkInterface_trace pl _ _) h)
    · rename_i h
      have h3 := List.IsPrefix.trans hf
        (trace_of_eq3 (ConfigureNetworkInterface_trace pl _ _) h)
      split
      · rename_i h4
        simp only [World.step, Prod.mk.injEq] at h4
        obtain ⟨-, rfl⟩ := h4
        refine List.IsPrefix.trans (List.IsPrefix.trans h3 ?_) (stopTeardown_trace pl _ _)
        exact List.prefix_append _ _
      · rename_i h4
        simp only [World.step, Prod.mk.injEq] at h4
        obtain ⟨-, rfl⟩ := h4
        exact List.IsPrefix.trans h3 (List.prefix_append _ _)
  · exact hf

theorem Init_afterStop_teardown {K : Type} (pl : Platform K) (vsp : mrvlVspServer)
    (inDpuMode : Bool) (w : World K) (ipPort : IpPort) (err : Option GoError)
    (h : (Init pl vsp inDpuMode w).1 = InitReturn.afterStop ipPort err) :
    ∃ (vspS : mrvlVspServer) (wS : World K),
      w.trace <+: wS.trace ∧ (Init pl vsp inDpuMode w).2 = stopTeardown pl vspS wS := by
  cases inDpuMode with
  | false => simp [Init] at h
  | true =>
    have hf := fetchIP_trace pl true w
    unfold Init at h ⊢
    simp only [if_true] at h ⊢
    split
    · rename_i hc
      exact ⟨_, _, List.IsPrefix.trans hf
        (trace_of_eq3 (ConfigureNetworkInterface_trace pl _ _) hc), rfl⟩
    · rename_i heq
      rw [heq] at h
      simp at h
    · rename_i hc
      have h3 := List.IsPrefix.trans hf
        (trace_of_eq3 (ConfigureNetworkInterface_trace pl _ _) hc)
      split
      · rename_i h4
        simp only [World.step, Prod.mk.injEq] at h4
        obtain ⟨-, rfl⟩ := h4
        exact ⟨_, _, List.IsPrefix.trans h3 (List.prefix_append _ _), rfl⟩
      · rename_i hinit
        rw [hc] at h
        simp only at h
        rw [hinit] at h
        simp at h

theorem GetDeviceHealth_trace {K : Type} (pl : Platform K) (vsp : mrvlVspServer)
    (name : String) (w : World K) : w.trace <+: (GetDeviceHealth pl vsp name w).2.trace := by
  unfold GetDeviceHealth
  split
  · split
    · rename_i h
      simp only [World.step, Prod.mk.injEq] at h
      obtain ⟨-, rfl⟩ := h
      exact List.prefix_append _ _
    · rename_i h
      simp only [World.step, Prod.mk.injEq] at h
      obtain ⟨-, rfl⟩ := h
      split <;> exact List.prefix_append _ _
  · split <;> exact List.prefix_refl _

theorem devicesLoop_trace {K : Type} (pl : Platform K) (vsp : mrvlVspServer)
    (store : List (String × mrvlDeviceInfo)) :
    ∀ (devices : List (String × Device)) (w : World K),
      w.trace <+: (devicesLoop pl vsp store devices w).2.trace := by
  induction store with
  | nil =>
    intro devices w
    exact List.prefix_refl _
  | cons kv rest ih =>
    intro devices w
    obtain ⟨k, info⟩ := kv
    simp only [devicesLoop]
    exact List.IsPrefix.trans (GetDeviceHealth_trace pl vsp _ w) (ih _ _)

theorem GetDevices_trace {K : Type} (pl : Platform K) (vsp : mrvlVspServer) (w : World K) :
    w.trace <+: (GetDevices pl vsp w).2.trace := by
  unfold GetDevices
  split
  · exact List.prefix_refl _
  · exact devicesLoop_trace pl vsp _ _ w

theorem getVFDetails_extends {K : Type} (pl : Platform K) (s : String) (w : World K) :
    w.trace <+: (getVFDetails pl s w).2.trace := by
  obtain ⟨evs, h⟩ := getVFDetails_trace pl s w
  rw [h]
  exact List.prefix_append _ _

theorem CreateBridgePort_trace {K σ : Type} (pl : Platform K) (vsp : mrvlVspServer)
    (req : BridgePort σ) (w : World K) :
    w.trace <+: (CreateBridgePort pl vsp req w).2.trace := by
  unfold CreateBridgePort
  simp only
  split
  · rename_i h
    exact trace_of_eq (getVFDetails_extends pl _ w) h
  · rename_i h
    have h1 := trace_of_eq (getVFDetails_extends pl _ w) h
    split
    · rename_i h2
      simp only [World.step, Prod.mk.injEq] at h2
      obtain ⟨-, rfl⟩ := h2
      exact List.IsPrefix.trans h1 (List.prefix_append _ _)
    · rename_i h2
      simp only [World.step, Prod.mk.injEq] at h2
      obtain ⟨-, rfl⟩ := h2
      refine List.IsPrefix.trans h1 ?_
      simp [World.note, List.append_assoc]

theorem DeleteBridgePort_trace {K : Type} (pl : Platform K) (vsp : mrvlVspServer)
    (name : String) (w : World K) :
    w.trace <+: (DeleteBridgePort pl vsp name w).2.trace := by
  unfold DeleteBridgePort
  simp only
  split
  · rename_i h
    exact trace_of_eq (getVFDetails_extends pl _ w) h
  · rename_i h
    have h1 := trace_of_eq (getVFDetails_extends pl _ w) h
    split
    · rename_i h2
      simp only [World.step, Prod.mk.injEq] at h2
      obtain ⟨-, rfl⟩ := h2
      exact List.IsPrefix.trans h1 (List.prefix_append _ _)
    · rename_i h2
      simp only [World.step, Prod.mk.injEq] at h2
      obtain ⟨-, rfl⟩ := h2
      refine List.IsPrefix.trans h1 ?_
      simp [World.note, List.append_assoc]

theorem SetNumVfs_trace {K : Type} (pl : Platform K) (vsp : mrvlVspServer)
    (inVfCnt : Int) (w : World K) :
    w.trace <+: (SetNumVfs pl vsp inVfCnt w).2.trace := by
  unfold SetNumVfs
  split
  · exact List.prefix_refl _
  · simp only [World.note, World.step]
    split
    · exact List.prefix_append _ _
    · split
      · exact List.prefix_append _ _
      · split
        · rename_i h2
          simp only [Prod.mk.injEq] at h2
          obtain ⟨-, rfl⟩ := h2
          simp [List.append_assoc]
        · rename_i h2
          simp only [Prod.mk.injEq] at h2
          obtain ⟨-, rfl⟩ := h2
          split
          · rename_i h3
            simp only [Prod.mk.injEq] at h3
            obtain ⟨-, rfl⟩ := h3
            simp [List.append_assoc]
          · rename_i h3
            simp only [Prod.mk.injEq] at h3
            obtain ⟨-, rfl⟩ := h3
            simp [List.append_assoc]

/-! ## Runs of the process -/

theorem newEvents_trans {K : Type} (w a b : World K) (h1 : w.trace <+: a.trace)
    (h2 : a.trace <+: b.trace) : newEvents w b = newEvents w a ++ newEvents a b := by
  obtain ⟨e1, h1⟩ := h1
  obtain ⟨e2, h2⟩ := h2
  simp [newEvents, ← h2, ← h1]

theorem fullRun_append {K : Type} (pl : Platform K) (s t : List FullAction) :
    ∀ p : Process K, fullRun pl (s ++ t) p = (fullRun pl s p).bind (fullRun pl t) := by
  induction s with
  | nil =>
    intro p
    simp [fullRun]
  | cons a rest ih =>
    intro p
    simp only [List.cons_append, fullRun]
    split
    · exact ih _
    · rfl

theorem fullRun_snoc {K : Type} (pl : Platform K) (s : List FullAction) (a : FullAction)
    (p0 p p1 : Process K) (hr : fullRun pl s p0 = some p) (hs : fullStep pl a p = some p1) :
    fullRun pl (s ++ [a]) p0 = some p1 := by
  rw [fullRun_append, hr]
  simp [fullRun, hs]

theorem stopReachedSend_mono {K : Type} (pl : Platform K) (p0 : Process K)
    (schedule : List FullAction) (a : FullAction) (evs more : List Event)
    (h : stopReachedSend pl p0 schedule evs) :
    stopReachedSend pl p0 (schedule ++ [a]) (evs ++ more) := by
  obtain ⟨s1, s2, s3, s4, pA, pB, hs, hA, hB, hsub⟩ := h
  exact ⟨s1, s2, s3, s4 ++ [a], pA, pB, by simp [hs], hA, hB,
    List.Sublist.trans hsub (List.sublist_append_left _ _)⟩

theorem initReachedSend_mono {K : Type} (pl : Platform K) (p0 : Process K)
    (schedule : List FullAction) (a : FullAction) (evs more : List Event)
    (h : initReachedSend pl p0 schedule evs) :
    initReachedSend pl p0 (schedule ++ [a]) (evs ++ more) := by
  obtain ⟨s1, s2, pH, m, ip, err, vspS, wS, hs, hH, hi, hp, he, hsub⟩ := h
  exact ⟨s1, s2 ++ [a], pH, m, ip, err, vspS, wS, by simp [hs], hH, hi, hp, he,
    List.Sublist.trans hsub (List.sublist_append_left _ _)⟩

theorem stopProgress_mono {K : Type} (pl : Platform K) (p0 : Process K)
    (schedule : List FullAction) (a : FullAction) (evs more : List Event) (pc : StopPC)
    (h : stopProgress pl p0 schedule evs pc) :
    stopProgress pl p0 (schedule ++ [a]) (evs ++ more) pc := by
  cases pc with
  | notCalled => trivial
  | deleted =>
    obtain ⟨s1, s2, pA, hs, hA, hsub⟩ := h
    exact ⟨s1, s2 ++ [a], pA, by simp [hs], hA,
      List.Sublist.trans hsub (List.sublist_append_left _ _)⟩
  | cleaned =>
    obtain ⟨s1, s2, s3, pA, pB, hs, hA, hB, hsub⟩ := h
    exact ⟨s1, s2, s3 ++ [a], pA, pB, by simp [hs], hA, hB,
      List.Sublist.trans hsub (List.sublist_append_left _ _)⟩
  | sending => exact stopReachedSend_mono pl p0 schedule a evs more h
  | waiting => exact stopReachedSend_mono pl p0 schedule a evs more h
  | returned => exact stopReachedSend_mono pl p0 schedule a evs more h

/-- A step that leaves `Stop` where it stands, or moves it on from its send, and only adds
to the trace, keeps what the run has shown. -/
theorem teardownShown_frame {K : Type} (pl : Platform K) (p0 p p1 : Process K)
    (schedule : List FullAction) (a : FullAction)
    (hinv : teardownShown pl p0 schedule p)
    (htr : p.daemon.world.trace <+: p1.daemon.world.trace)
    (hstop : p1.daemon.stop = p.daemon.stop ∨
      (p.daemon.stop = StopPC.sending ∧ p1.daemon.stop = StopPC.waiting) ∨
      (p.daemon.stop = StopPC.waiting ∧ p1.daemon.stop = StopPC.returned))
    (hinit : p1.initStops ≤ p.initStops) :
    teardownShown pl p0 (schedule ++ [a]) p1 := by
  obtain ⟨hp, hs, hi⟩ := hinv
  have hev := newEvents_trans p0.daemon.world p.daemon.world p1.daemon.world hp htr
  refine ⟨List.IsPrefix.trans hp htr, ?_, ?_⟩
  · rw [hev]
    rcases hstop with h | ⟨h, h1⟩ | ⟨h, h1⟩
    · rw [h]
      exact stopProgress_mono pl p0 schedule a _ _ _ hs
    · rw [h] at hs
      rw [h1]
      exact stopReachedSend_mono pl p0 schedule a _ _ hs
    · rw [h] at hs
      rw [h1]
      exact stopReachedSend_mono pl p0 schedule a _ _ hs
  · intro hpos
    rw [hev]
    exact initReachedSend_mono pl p0 schedule a _ _ (hi (Nat.lt_of_lt_of_le hpos hinit))

theorem step_frame {K : Type} (pl : Platform K) (a : Action) (d d1 : Daemon K)
    (ha : a ≠ Action.Stop) (h : step pl a d = some d1) :
    d.world.trace <+: d1.world.trace ∧
    (d1.stop = d.stop ∨ (d.stop = StopPC.sending ∧ d1.stop = StopPC.waiting) ∨
      (d.stop = StopPC.waiting ∧ d1.stop = StopPC.returned)) := by
  unfold step at h
  split at h
  · cases h
  · cases a with
    | Serve =>
      simp only at h
      split at h
      · cases h
        exact ⟨List.prefix_refl _, Or.inl rfl⟩
      · cases h
    | grpcServeReturns err =>
      simp only at h
      split at h
      · cases h
        exact ⟨List.prefix_refl _, Or.inl rfl⟩
      · cases h
    | Stop => exact absurd rfl ha
    | deliver s =>
      cases s with
      | goroutine =>
        simp only at h
        split at h
        · cases h
          exact ⟨List.prefix_append _ _, Or.inl rfl⟩
        · cases h
      | stop =>
        simp only at h
        split at h
        · rename_i hserve hstop
          cases h
          exact ⟨List.prefix_append _ _, Or.inr (Or.inl ⟨hstop, rfl⟩)⟩
        · cases h
    | goroutineDone =>
      simp only at h
      split at h
      · split at h <;> (cases h; exact ⟨List.prefix_refl _, Or.inl rfl⟩)
      · cases h
    | serveRelease =>
      simp only at h
      split at h
      · split at h
        · split at h <;> (cases h; exact ⟨List.prefix_refl _, Or.inl rfl⟩)
        · cases h
      · cases h
    | stopReturn =>
      simp only at h
      split at h
      · rename_i hstop
        split at h
        · cases h
          exact ⟨List.prefix_refl _, Or.inr (Or.inr ⟨hstop, rfl⟩)⟩
        · cases h
      · cases h

theorem handle_frame {K : Type} (pl : Platform K) (call : Rpc) (p : Process K) :
    p.daemon.world.trace <+: (handle pl call p).daemon.world.trace ∧
    (handle pl call p).daemon.stop = p.daemon.stop ∧
    ((handle pl call p).initStops = p.initStops ∨
      ∃ (inDpuMode : Bool) (ipPort : IpPort) (err : Option GoError),
        call = Rpc.Init inDpuMode ∧
        (Init pl p.daemon.vsp inDpuMode p.daemon.world).1 = InitReturn.afterStop ipPort err ∧
        (handle pl call p).daemon.world = (Init pl p.daemon.vsp inDpuMode p.daemon.world).2.2) := by
  cases call with
  | Init inDpuMode =>
    have ht := Init_trace pl p.daemon.vsp inDpuMode p.daemon.world
    simp only [handle]
    split
    · rename_i h
      rw [h] at ht
      exact ⟨ht, rfl, Or.inl rfl⟩
    · rename_i h
      rw [h] at ht
      exact ⟨ht, rfl, Or.inr ⟨inDpuMode, _, _, rfl, by rw [h], by rw [h]⟩⟩
    · rename_i h
      rw [h] at ht
      exact ⟨ht, rfl, Or.inl rfl⟩
  | CreateBridgePort name =>
    exact ⟨CreateBridgePort_trace pl _ _ _, rfl, Or.inl rfl⟩
  | DeleteBridgePort name =>
    exact ⟨DeleteBridgePort_trace pl _ _ _, rfl, Or.inl rfl⟩
  | CreateNetworkFunction => exact ⟨List.prefix_refl _, rfl, Or.inl rfl⟩
  | DeleteNetworkFunction => exact ⟨List.prefix_refl _, rfl, Or.inl rfl⟩
  | GetDevices => exact ⟨GetDevices_trace pl _ _, rfl, Or.inl rfl⟩
  | SetNumVfs inVfCnt => exact ⟨SetNumVfs_trace pl _ _ _, rfl, Or.inl rfl⟩

theorem stopCalls_of_stopTeardown {K : Type} (pl : Platform K) (vspS : mrvlVspServer)
    (w wS : World K) (hp : w.trace <+: wS.trace) :
    List.Sublist
      (stopCalls pl vspS wS vspS
        (wS.step (pl.DeleteDataplane wS.kernel vspS.bridgeName)
          (Event.DeleteDataplane vspS.bridgeName)).2)
      (newEvents w (stopTeardown pl vspS wS).2) := by
  rw [newEvents_trans w wS _ hp (stopTeardown_trace pl vspS wS)]
  refine List.Sublist.trans ?_ (List.sublist_append_right _ _)
  have h : newEvents wS (stopTeardown pl vspS wS).2
      = stopCalls pl vspS wS vspS
          (wS.step (pl.DeleteDataplane wS.kernel vspS.bridgeName)
            (Event.DeleteDataplane vspS.bridgeName)).2 := by
    simp only [newEvents, (stopTeardown_spec pl vspS wS).2, stopCalls]
    simp
  rw [h]

theorem fullStep_keeps_teardownShown {K : Type} (pl : Platform K) (p0 p p1 : Process K)
    (schedule : List FullAction) (a : FullAction)
    (hrun : fullRun pl schedule p0 = some p)
    (hinv : teardownShown pl p0 schedule p)
    (h : fullStep pl a p = some p1) :
    teardownShown pl p0 (schedule ++ [a]) p1 := by
  unfold fullStep at h
  split at h
  · cases h
  · cases a with
    | thread a =>
      cases a with
      | Stop => simp at h
      | Serve =>
        simp only at h
        split at h
        · rename_i d1 hd
          cases h
          obtain ⟨ht, hs⟩ := step_frame pl _ _ _ (by simp) hd
          exact teardownShown_frame pl p0 p _ schedule _ hinv ht hs (Nat.le_refl _)
        · cases h
      | grpcServeReturns err =>
        simp only at h
        split at h
        · rename_i d1 hd
          cases h
          obtain ⟨ht, hs⟩ := step_frame pl _ _ _ (by simp) hd
          exact teardownShown_frame pl p0 p _ schedule _ hinv ht hs (Nat.le_refl _)
        · cases h
      | deliver s =>
        simp only at h
        split at h
        · rename_i d1 hd
          cases h
          obtain ⟨ht, hs⟩ := step_frame pl _ _ _ (by simp) hd
          exact teardownShown_frame pl p0 p _ schedule _ hinv ht hs (Nat.le_refl _)
        · cases h
      | goroutineDone =>
        simp only at h
        split at h
        · rename_i d1 hd
          cases h
          obtain ⟨ht, hs⟩ := step_frame pl _ _ _ (by simp) hd
          exact teardownShown_frame pl p0 p _ schedule _ hinv ht hs (Nat.le_refl _)
        · cases h
      | serveRelease =>
        simp only at h
        split at h
        · rename_i d1 hd
          cases h
          obtain ⟨ht, hs⟩ := step_frame pl _ _ _ (by simp) hd
          exact teardownShown_frame pl p0 p _ schedule _ hinv ht hs (Nat.le_refl _)
        · cases h
      | stopReturn =>
        simp only at h
        split at h
        · rename_i d1 hd
          cases h
          obtain ⟨ht, hs⟩ := step_frame pl _ _ _ (by simp) hd
          exact teardownShown_frame pl p0 p _ schedule _ hinv ht hs (Nat.le_refl _)
        · cases h
    | rpc call =>
      simp only at h
      split at h
      · cases h
      · cases h
        obtain ⟨ht, hs, hi⟩ := handle_frame pl call p
        rcases hi with hi | ⟨m, ip, err, hcall, hafter, hw⟩
        · exact teardownShown_frame pl p0 p _ schedule _ hinv ht (Or.inl hs) (Nat.le_of_eq hi)
        · obtain ⟨hp, hsp, -⟩ := hinv
          have hev := newEvents_trans p0.daemon.world p.daemon.world
            (handle pl call p).daemon.world hp ht
          refine ⟨List.IsPrefix.trans hp ht, ?_, ?_⟩
          · rw [hev, hs]
            exact stopProgress_mono pl p0 schedule _ _ _ _ hsp
          · intro _
            obtain ⟨vspS, wS, hpre, heq⟩ :=
              Init_afterStop_teardown pl p.daemon.vsp m p.daemon.world ip err hafter
            refine ⟨schedule, [], p, m, ip, err, vspS, wS, by rw [hcall], hrun, hafter, hpre,
              heq, ?_⟩
            rw [hw, heq]
            exact stopCalls_of_stopTeardown pl vspS p0.daemon.world wS
              (List.IsPrefix.trans hp hpre)
    | StopDeleteDataplane =>
      simp only at h
      split at h
      · rename_i hstop
        cases h
        obtain ⟨hp, -, hi⟩ := hinv
        have ht : p.daemon.world.trace <+:
            (p.daemon.world.step
              (pl.DeleteDataplane p.daemon.world.kernel p.daemon.vsp.bridgeName)
              (Event.DeleteDataplane p.daemon.vsp.bridgeName)).2.trace := by
          simp [World.step]
        have hev := newEvents_trans p0.daemon.world p.daemon.world _ hp ht
        refine ⟨List.IsPrefix.trans hp ht, ?_, ?_⟩
        · refine ⟨schedule, [], p, rfl, hrun, ?_⟩
          simp only
          rw [hev]
          refine List.Sublist.trans ?_ (List.sublist_append_right _ _)
          simp [newEvents, World.step]
        · intro hpos
          simp only
          rw [hev]
          exact initReachedSend_mono pl p0 schedule _ _ _ (hi hpos)
      · cases h
    | StopCleanVethPairs =>
      simp only at h
      split at h
      · rename_i hstop
        cases h
        obtain ⟨hp, hsp, hi⟩ := hinv
        rw [hstop] at hsp
        obtain ⟨s1, s2, pA, hs, hA, hsub⟩ := hsp
        have ht := CleanVethPairs_trace pl p.daemon.vsp p.daemon.world
        have hev := newEvents_trans p0.daemon.world p.daemon.world _ hp ht
        refine ⟨List.IsPrefix.trans hp ht, ?_, ?_⟩
        · refine ⟨s1, s2, [], pA, p, by simp [hs], hA, by rw [← hs]; exact hrun, ?_⟩
          simp only
          rw [hev]
          exact List.Sublist.append hsub (List.Sublist.refl _)
        · intro hpos
          simp only
          rw [hev]
          exact initReachedSend_mono pl p0 schedule _ _ _ (hi hpos)
      · cases h
    | StopGrpcServer =>
      simp only at h
      split at h
      · rename_i hstop
        cases h
        obtain ⟨hp, hsp, hi⟩ := hinv
        rw [hstop] at hsp
        obtain ⟨s1, s2, s3, pA, pB, hs, hA, hB, hsub⟩ := hsp
        have ht : p.daemon.world.trace <+: (p.daemon.log [Event.GrpcServerStop]).trace := by
          simp [Daemon.log]
        have hev := newEvents_trans p0.daemon.world p.daemon.world _ hp ht
        refine ⟨List.IsPrefix.trans hp ht, ?_, ?_⟩
        · refine ⟨s1, s2, s3, [], pA, pB, by simp [hs], hA, hB, ?_⟩
          simp only
          rw [hev]
          have hlast : newEvents p.daemon.world (p.daemon.log [Event.GrpcServerStop])
              = [Event.GrpcServerStop] := by
            simp [newEvents, Daemon.log]
          rw [hlast]
          have := List.Sublist.append hsub (List.Sublist.refl [Event.GrpcServerStop])
          simpa [stopCalls] using this
        · intro hpos
          simp only
          rw [hev]
          exact initReachedSend_mono pl p0 schedule _ _ _ (hi hpos)
      · cases h
    | deliverInitStop =>
      simp only at h
      split at h
      · rename_i n hserve hn
        cases h
        have ht : p.daemon.world.trace <+:
            (p.daemon.log [Event.Done Sender.stop none, Event.GrpcServerStop]).trace := by
          simp [Daemon.log]
        exact teardownShown_frame pl p0 p _ schedule _ hinv ht (Or.inl rfl)
          (by simp only; omega)
      · cases h

theorem fullRun_keeps_teardownShown {K : Type} (pl : Platform K) (p0 : Process K)
    (rest : List FullAction) :
    ∀ (done : List FullAction) (p p1 : Process K),
      fullRun pl done p0 = some p → teardownShown pl p0 done p →
      fullRun pl rest p = some p1 →
      fullRun pl (done ++ rest) p0 = some p1 ∧ teardownShown pl p0 (done ++ rest) p1 := by
  induction rest with
  | nil =>
    intro done p p1 hrun hinv h
    simp only [fullRun, Option.some.injEq] at h
    subst h
    simpa using ⟨hrun, hinv⟩
  | cons a rest ih =>
    intro done p p1 hrun hinv h
    simp only [fullRun] at h
    split at h
    · rename_i p2 hstep
      have h2 := ih (done ++ [a]) p2 p1 (fullRun_snoc pl done a p0 p p2 hrun hstep)
        (fullStep_keeps_teardownShown pl p0 p p2 done a hrun hinv hstep) h
      simpa using h2
    · cases h

theorem teardownShown_of_fullRun {K : Type} (pl : Platform K) (p0 p : Process K)
    (schedule : List FullAction) (h0 : p0.daemon.stop = StopPC.notCalled)
    (hi0 : p0.initStops = 0) (hrun : fullRun pl schedule p0 = some p) :
    teardownShown pl p0 schedule p := by
  have h := (fullRun_keeps_teardownShown pl p0 schedule [] p0 p rfl
    ⟨List.prefix_refl _, by rw [h0]; trivial, by rw [hi0]; intro h; cases h⟩ hrun).2
  simpa using h

/-! ## C11: the order of the shutdown -/

/-- C11 (as stated, refuted), three runs of the example. First, two pairs are provisioned,
`Serve` runs, and `grpcServer.Serve` returns the error "accept failed": the goroutine's send
unblocks `Serve`, which goes on to `wg.Wait()` with that error; up to then the only events
are the receive and `grpcServer.Stop()`: `DeleteDataplane` was not called, the registry
still holds both entries and the four links are still in the kernel. Second, after `Init`
has provisioned two pairs and initialised the dataplane, `Stop` is called where the driver
cannot delete the dataplane and the kernel refuses to delete links: `Stop` goes through its
three parts, its send unblocks `Serve`, and the four links are still in the kernel. Third,
with every call succeeding, a handler of `Init` runs between `CleanVethPairs` and
`grpcServer.Stop()` of `Stop`: when the send of `Stop` unblocks `Serve`, the two pairs are
registered and in the kernel once more, and `InitDataPlane` has been called after
`DeleteDataplane`. -/
theorem Serve_unblocked_without_teardown :
    ((run (simPlatform [] [])
        [Action.Serve, Action.grpcServeReturns (some (GoError.new "accept failed")),
         Action.deliver Sender.goroutine]
        (boot simProvisioned.1 simProvisioned.2)).map
      (fun d => (d.serve, newEvents simProvisioned.2 d.world,
        (registryEntries d.vsp).map (fun kv => kv.2.nfInterfaceName),
        d.world.kernel.links.map (fun l => l.1.Name)))
    = some (ServePC.waiting (some (GoError.new "accept failed")),
        [Event.Done Sender.goroutine (some (GoError.new "accept failed")),
         Event.GrpcServerStop],
        ["nf_interface0", "nf_interface1"],
        ["enp1s0", "nf_interface0", "dp_interface0", "nf_interface1", "dp_interface1"])) ∧
    (fullRun simPlatformTeardownFails
        [FullAction.thread Action.Serve, FullAction.rpc (Rpc.Init true)]
        (bootProcess NewMarvellVspServer simWorld0) = some simServing ∧
      (fullRun simPlatformTeardownFails
          [FullAction.StopDeleteDataplane, FullAction.StopCleanVethPairs,
           FullAction.StopGrpcServer, FullAction.thread (Action.deliver Sender.stop)]
          simServing).map
        (fun p => (p.daemon.serve, newEvents simServing.daemon.world p.daemon.world,
          p.daemon.world.kernel.links.map (fun l => l.1.Name)))
      = some (ServePC.waiting none,
          [Event.DeleteDataplane "br-mrv0" (some (GoError.new "driver unreachable")),
           Event.LinkByName "nf_interface0" (Res.ok
             { Index := 2, Name := "nf_interface0", HardwareAddr := "02:00:00:00:00:02",
               FlagUp := true }),
           Event.LinkDel
             { Index := 2, Name := "nf_interface0", HardwareAddr := "02:00:00:00:00:02",
               FlagUp := true }
             (some (GoError.new "operation not permitted")),
           Event.LinkByName "nf_interface1" (Res.ok
             { Index := 4, Name := "nf_interface1", HardwareAddr := "02:00:00:00:00:04",
               FlagUp := true }),
           Event.LinkDel
             { Index := 4, Name := "nf_interface1", HardwareAddr := "02:00:00:00:00:04",
               FlagUp := true }
             (some (GoError.new "operation not permitted")),
           Event.GrpcServerStop, Event.Done Sender.stop none, Event.GrpcServerStop],
          ["enp1s0", "nf_interface0", "dp_interface0", "nf_interface1", "dp_interface1"])) ∧
    (fullRun (simPlatform [] [])
        [FullAction.thread Action.Serve, FullAction.rpc (Rpc.Init true)]
        (bootProcess NewMarvellVspServer simWorld0) = some simServing ∧
      (fullRun (simPlatform [] [])
          [FullAction.StopDeleteDataplane, FullAction.StopCleanVethPairs,
           FullAction.rpc (Rpc.Init true), FullAction.StopGrpcServer,
           FullAction.thread (Action.deliver Sender.stop)]
          simServing).map
        (fun p => (p.daemon.serve,
          ((newEvents simServing.daemon.world p.daemon.world).filterMap deletionOf).map
            (fun link => link.Name),
          (newEvents simServing.daemon.world p.daemon.world).filterMap dataplaneInitOf,
          (registryEntries p.daemon.vsp).map (fun kv => kv.2.nfInterfaceName),
          p.daemon.world.kernel.links.map (fun l => l.1.Name)))
      = some (ServePC.waiting none,
          ["nf_interface0", "nf_interface1"],
          ["br-mrv0"],
          ["nf_interface0", "nf_interface1"],
          ["enp1s0", "nf_interface0", "dp_interface0", "nf_interface1", "dp_interface1"])) := by
  refine ⟨by decide, ⟨by decide, by decide⟩, ⟨by decide, by decide⟩⟩

/-- C11 (amended): a call of `Stop` takes its steps in the order `DeleteDataplane`,
`CleanVethPairs`, `grpcServer.Stop()`, send, each whatever the one before returned: from any
state where `Stop` is not yet called its three parts can be taken in a row, and they leave
the server and the world of `stopTeardown` and the events of `stopCalls`. In every run of
the process, with handlers and the parts of `Stop` interleaved at will, when the send of
the `Stop` of a thread is received by `Serve`, the three parts of that `Stop` are in the
schedule in their order, and the events so far show, in this order, its `DeleteDataplane`
call, the calls that `CleanVethPairs` made in the state in which it was called, and
`grpcServer.Stop()`; and when the send of the `Stop` that a failed `Init` called is
received, the events so far show the same calls of that `Stop`. On the other path nothing
is torn down: when `grpcServer.Serve` returns, the goroutine stands at its send with the
server and the world unchanged, and its send being received is followed by
`grpcServer.Stop()` only. -/
theorem shutdown_order {K : Type} (pl : Platform K) (vsp : mrvlVspServer) (w : World K) :
    (∀ p : Process K, p.daemon.crashed = none → p.daemon.stop = StopPC.notCalled →
      ∃ p1 : Process K,
        fullRun pl [FullAction.StopDeleteDataplane, FullAction.StopCleanVethPairs,
          FullAction.StopGrpcServer] p = some p1 ∧
        p1.daemon.stop = StopPC.sending ∧
        (p1.daemon.vsp, p1.daemon.world) = stopTeardown pl p.daemon.vsp p.daemon.world ∧
        newEvents p.daemon.world p1.daemon.world
          = stopCalls pl p.daemon.vsp p.daemon.world p.daemon.vsp
              (p.daemon.world.step
                (pl.DeleteDataplane p.daemon.world.kernel p.daemon.vsp.bridgeName)
                (Event.DeleteDataplane p.daemon.vsp.bridgeName)).2) ∧
    (∀ (schedule : List FullAction) (p p1 : Process K),
      fullRun pl schedule (bootProcess vsp w) = some p →
      fullStep pl (FullAction.thread (Action.deliver Sender.stop)) p = some p1 →
      ∃ (s1 s2 s3 s4 : List FullAction) (pA pB : Process K),
        schedule = s1 ++ FullAction.StopDeleteDataplane
          :: (s2 ++ FullAction.StopCleanVethPairs :: (s3 ++ FullAction.StopGrpcServer :: s4)) ∧
        fullRun pl s1 (bootProcess vsp w) = some pA ∧
        fullRun pl (s1 ++ FullAction.StopDeleteDataplane :: s2) (bootProcess vsp w)
          = some pB ∧
        List.Sublist
          (stopCalls pl pA.daemon.vsp pA.daemon.world pB.daemon.vsp pB.daemon.world)
          (newEvents w p.daemon.world)) ∧
    (∀ (schedule : List FullAction) (p p1 : Process K),
      fullRun pl schedule (bootProcess vsp w) = some p →
      fullStep pl FullAction.deliverInitStop p = some p1 →
      ∃ (s1 s2 : List FullAction) (pH : Process K) (inDpuMode : Bool) (ipPort : IpPort)
          (err : Option GoError) (vspS : mrvlVspServer) (wS : World K),
        schedule = s1 ++ FullAction.rpc (Rpc.Init inDpuMode) :: s2 ∧
        fullRun pl s1 (bootProcess vsp w) = some pH ∧
        (Init pl pH.daemon.vsp inDpuMode pH.daemon.world).1
          = InitReturn.afterStop ipPort err ∧
        pH.daemon.world.trace <+: wS.trace ∧
        (Init pl pH.daemon.vsp inDpuMode pH.daemon.world).2 = stopTeardown pl vspS wS ∧
        List.Sublist
          (stopCalls pl vspS wS vspS
            (wS.step (pl.DeleteDataplane wS.kernel vspS.bridgeName)
              (Event.DeleteDataplane vspS.bridgeName)).2)
          (newEvents w p.daemon.world)) ∧
    (∀ (p p1 : Process K) (err : Option GoError),
      fullStep pl (FullAction.thread (Action.grpcServeReturns err)) p = some p1 →
      p1.daemon.vsp = p.daemon.vsp ∧ p1.daemon.world = p.daemon.world ∧
      p1.daemon.goroutine = GoroutinePC.sending err) ∧
    (∀ p p1 : Process K,
      fullStep pl (FullAction.thread (Action.deliver Sender.goroutine)) p = some p1 →
      p1.daemon.vsp = p.daemon.vsp ∧
      ∃ err, p.daemon.goroutine = GoroutinePC.sending err ∧
        newEvents p.daemon.world p1.daemon.world
          = [Event.Done Sender.goroutine err, Event.GrpcServerStop]) := by
  refine ⟨?_, ?_, ?_, ?_, ?_⟩
  · intro p hc hs
    refine ⟨{ daemon := { p.daemon with
                vsp := (stopTeardown pl p.daemon.vsp p.daemon.world).1
                world := (stopTeardown pl p.daemon.vsp p.daemon.world).2
                stop := StopPC.sending }
              initStops := p.initStops }, ?_, rfl, rfl, ?_⟩
    · simp [fullRun, fullStep, hc, hs, stopTeardown, Daemon.log]
    · simp only [newEvents, stopCalls, (stopTeardown_spec pl p.daemon.vsp p.daemon.world).2]
      simp
  · intro schedule p p1 hrun hstep
    obtain ⟨-, hsp, -⟩ := teardownShown_of_fullRun pl (bootProcess vsp w) p schedule rfl rfl hrun
    have hstop : p.daemon.stop = StopPC.sending := by
      unfold fullStep at hstep
      split at hstep
      · cases hstep
      · simp only at hstep
        split at hstep
        · rename_i d1 hd
          unfold step at hd
          split at hd
          · cases hd
          · simp only at hd
            split at hd
            · rename_i hserve hst
              exact hst
            · cases hd
        · cases hstep
    rw [hstop] at hsp
    exact hsp
  · intro schedule p p1 hrun hstep
    obtain ⟨-, -, hi⟩ := teardownShown_of_fullRun pl (bootProcess vsp w) p schedule rfl rfl hrun
    have hpos : 0 < p.initStops := by
      unfold fullStep at hstep
      split at hstep
      · cases hstep
      · simp only at hstep
        split at hstep
        · rename_i n hserve hn
          omega
        · cases hstep
    exact hi hpos
  · intro p p1 err h
    unfold fullStep at h
    split at h
    · cases h
    · simp only at h
      split at h
      · rename_i d1 hd
        cases h
        unfold step at hd
        split at hd
        · cases hd
        · simp only at hd
          split at hd
          · cases hd
            exact ⟨rfl, rfl, rfl⟩
          · cases hd
      · cases h
  · intro p p1 h
    unfold fullStep at h
    split at h
    · cases h
    · simp only at h
      split at h
      · rename_i d1 hd
        cases h
        unfold step at hd
        split at hd
        · cases hd
        · simp only at hd
          split at hd
          · rename_i err hserve hgo
            cases hd
            exact ⟨rfl, err, hgo, by simp [newEvents, Daemon.log]⟩
          · cases hd
      · cases h

/-- C11 (amended) on the example. After `Serve`, `Init`, and a `Stop` whose parts are
interleaved with a handler of `GetDevices`, the send of `Stop` can be received, and the
events show the calls of that `Stop` in their order. On the kernel that refuses to set
`nf_interface1` up, `Init` fails and calls `Stop`; its send can be received, and the events
show the calls of that `Stop` in their order. -/
theorem shutdown_order_witness :
    ((fullRun (simPlatform [] [])
        [FullAction.thread Action.Serve, FullAction.rpc (Rpc.Init true),
         FullAction.StopDeleteDataplane, FullAction.rpc Rpc.GetDevices,
         FullAction.StopCleanVethPairs, FullAction.StopGrpcServer]
        (bootProcess NewMarvellVspServer simWorld0) = some simAtSend ∧
      (fullStep (simPlatform [] []) (FullAction.thread (Action.deliver Sender.stop))
        simAtSend).isSome = true) ∧
      ∃ (s1 s2 s3 s4 : List FullAction) (pA pB : Process SimKernel),
        [FullAction.thread Action.Serve, FullAction.rpc (Rpc.Init true),
         FullAction.StopDeleteDataplane, FullAction.rpc Rpc.GetDevices,
         FullAction.StopCleanVethPairs, FullAction.StopGrpcServer]
          = s1 ++ FullAction.StopDeleteDataplane
            :: (s2 ++ FullAction.StopCleanVethPairs :: (s3 ++ FullAction.StopGrpcServer :: s4)) ∧
        fullRun (simPlatform [] []) s1 (bootProcess NewMarvellVspServer simWorld0) = some pA ∧
        fullRun (simPlatform [] []) (s1 ++ FullAction.StopDeleteDataplane :: s2)
          (bootProcess NewMarvellVspServer simWorld0) = some pB ∧
        List.Sublist
          (stopCalls (simPlatform [] []) pA.daemon.vsp pA.daemon.world pB.daemon.vsp
            pB.daemon.world)
          (newEvents simWorld0 simAtSend.daemon.world)) ∧
    ((fullRun simPlatformSetUpFails
        [FullAction.thread Action.Serve, FullAction.rpc (Rpc.Init true)]
        (bootProcess NewMarvellVspServer simWorld0) = some simInitAtSend ∧
      (fullStep simPlatformSetUpFails FullAction.deliverInitStop simInitAtSend).isSome
        = true) ∧
      ∃ (s1 s2 : List FullAction) (pH : Process SimKernel) (inDpuMode : Bool)
          (ipPort : IpPort) (err : Option GoError) (vspS : mrvlVspServer)
          (wS : World SimKernel),
        [FullAction.thread Action.Serve, FullAction.rpc (Rpc.Init true)]
          = s1 ++ FullAction.rpc (Rpc.Init inDpuMode) :: s2 ∧
        fullRun simPlatformSetUpFails s1 (bootProcess NewMarvellVspServer simWorld0)
          = some pH ∧
        (Init simPlatformSetUpFails pH.daemon.vsp inDpuMode pH.daemon.world).1
          = InitReturn.afterStop ipPort err ∧
        pH.daemon.world.trace <+: wS.trace ∧
        (Init simPlatformSetUpFails pH.daemon.vsp inDpuMode pH.daemon.world).2
          = stopTeardown simPlatformSetUpFails vspS wS ∧
        List.Sublist
          (stopCalls simPlatformSetUpFails vspS wS vspS
            (wS.step (simPlatformSetUpFails.DeleteDataplane wS.kernel vspS.bridgeName)
              (Event.DeleteDataplane vspS.bridgeName)).2)
          (newEvents simWorld0 simInitAtSend.daemon.world)) :=
  ⟨⟨⟨by decide, by decide⟩,
    (shutdown_order (simPlatform [] []) NewMarvellVspServer simWorld0).2.1 _ simAtSend
      ((fullStep (simPlatform [] []) (FullAction.thread (Action.deliver Sender.stop))
        simAtSend).getD simAtSend)
      (by decide) (by decide)⟩,
   ⟨⟨by decide, by decide⟩,
    (shutdown_order simPlatformSetUpFails NewMarvellVspServer simWorld0).2.2.1 _
      simInitAtSend
      ((fullStep simPlatformSetUpFails FullAction.deliverInitStop simInitAtSend).getD
        simInitAtSend)
      (by decide) (by decide)⟩⟩

/-! ## C12: two senders for one receive -/

/-- C12 (the code at the failing input): `Stop` is called while `Serve` is serving, and
`grpcServer.Serve` returns. If the send of `Stop` is the one received, `Stop` returns, but
the goroutine stays in its send and `Serve` in `wg.Wait()` with the counter at 1, and no
step is possible any more. If the send of the goroutine is the one received, `Serve` ends
in the panic of `startedWg.Done()` while `Stop` is still in its send. -/
theorem Stop_during_Serve_blocks_a_sender :
    run (simPlatform [] [])
        [Action.Serve, Action.Stop, Action.grpcServeReturns none, Action.deliver Sender.stop,
         Action.stopReturn]
        (boot simProvisioned.1 simProvisioned.2) = some simStuck ∧
    simStuck.goroutine = GoroutinePC.sending none ∧
    simStuck.serve = ServePC.waiting none ∧
    simStuck.stop = StopPC.returned ∧
    simStuck.wg = 1 ∧
    simStuck.crashed = none ∧
    (∀ a : Action, step (simPlatform [] []) a simStuck = none) ∧
    (run (simPlatform [] [])
        [Action.Serve, Action.Stop, Action.grpcServeReturns none,
         Action.deliver Sender.goroutine, Action.goroutineDone, Action.serveRelease]
        (boot simProvisioned.1 simProvisioned.2)).map (fun d => (d.stop, d.serve, d.crashed))
      = some (StopPC.sending, ServePC.waiting none,
          some "sync: negative WaitGroup counter") := by
  refine ⟨by decide, by decide, by decide, by decide, by decide, by decide, ?_, by decide⟩
  intro a
  cases a with
  | Serve => decide
  | grpcServeReturns err => rfl
  | Stop => decide
  | deliver s => cases s <;> decide
  | goroutineDone => decide
  | serveRelease => decide
  | stopReturn => decide

/-! ## C15: the gate `startedWg` -/

theorem step_keeps_gate {K : Type} (pl : Platform K) (a : Action) (d d1 : Daemon K)
    (hg : d.crashed = none → d.startedWg = 0)
    (hs : ∀ err, d.serve ≠ ServePC.returned err)
    (h : step pl a d = some d1) :
    (d1.crashed = none → d1.startedWg = 0) ∧ ∀ err, d1.serve ≠ ServePC.returned err := by
  unfold step at h
  split at h
  · cases h
  · rename_i hc
    have hc0 : d.crashed = none := by simpa using hc
    cases a with
    | Serve =>
      simp only at h
      split at h
      · cases h
        exact ⟨hg, fun err => by simp⟩
      · cases h
    | grpcServeReturns err =>
      simp only at h
      split at h
      · cases h
        exact ⟨hg, hs⟩
      · cases h
    | Stop =>
      simp only at h
      split at h
      · cases h
        exact ⟨hg, hs⟩
      · cases h
    | deliver s =>
      cases s with
      | goroutine =>
        simp only at h
        split at h
        · cases h
          exact ⟨hg, fun err => by simp⟩
        · cases h
      | stop =>
        simp only at h
        split at h
        · cases h
          exact ⟨hg, fun err => by simp⟩
        · cases h
    | goroutineDone =>
      simp only at h
      split at h
      · split at h
        · cases h
          exact ⟨fun hn => by simp at hn, hs⟩
        · cases h
          exact ⟨hg, hs⟩
      · cases h
    | serveRelease =>
      simp only at h
      split at h
      · split at h
        · split at h
          · cases h
            exact ⟨fun hn => by simp at hn, hs⟩
          · rename_i hneg
            rw [hg hc0] at hneg
            exact absurd (by decide : (0 : Int) - 1 < 0) hneg
        · cases h
      · cases h
    | stopReturn =>
      simp only at h
      split at h
      · split at h
        · cases h
          exact ⟨hg, hs⟩
        · cases h
      · cases h

theorem run_keeps_gate {K : Type} (pl : Platform K) (schedule : List Action) :
    ∀ (d d1 : Daemon K), (d.crashed = none → d.startedWg = 0) →
      (∀ err, d.serve ≠ ServePC.returned err) →
      run pl schedule d = some d1 →
      (d1.crashed = none → d1.startedWg = 0) ∧ ∀ err, d1.serve ≠ ServePC.returned err := by
  induction schedule with
  | nil =>
    intro d d1 hg hs h
    simp only [run, Option.some.injEq] at h
    subst h
    exact ⟨hg, hs⟩
  | cons a rest ih =>
    intro d d1 hg hs h
    simp only [run] at h
    split at h
    · rename_i d2 hstep
      obtain ⟨hg2, hs2⟩ := step_keeps_gate pl a d d2 hg hs hstep
      exact ih d2 d1 hg2 hs2 h
    · cases h

/-- C15 (the code at the failing input): on a daemon built by `NewMarvellVspServer` and run
through `Listen` and `Serve`, whatever the platform and the outcome `err` of
`grpcServer.Serve`, once the goroutine has sent `err` and called `wg.Done()`, the
`startedWg.Done()` of `Serve` takes the counter from 0 to -1 and panics, `Serve` not having
returned; and in no run at all does `Serve` return. -/
theorem Serve_panics_at_startedWg_Done {K : Type} (pl : Platform K) (vsp : mrvlVspServer)
    (w : World K) :
    (∀ err : Option GoError,
      (run pl [Action.Serve, Action.grpcServeReturns err, Action.deliver Sender.goroutine,
          Action.goroutineDone, Action.serveRelease] (boot vsp w)).map
        (fun d => (d.serve, d.startedWg, d.crashed))
      = some (ServePC.waiting err, -1, some "sync: negative WaitGroup counter")) ∧
    (∀ (schedule : List Action) (err : Option GoError),
      (run pl schedule (boot vsp w)).map (fun d => d.serve) ≠ some (ServePC.returned err)) := by
  constructor
  · intro err
    simp [run, step, boot, Daemon.log]
  · intro schedule err h
    cases hr : run pl schedule (boot vsp w) with
    | none => simp [hr] at h
    | some d =>
      obtain ⟨-, hs⟩ := run_keeps_gate pl schedule (boot vsp w) d (fun _ => rfl)
        (fun e => by simp [boot]) hr
      rw [hr] at h
      simp only [Option.map_some', Option.some.injEq] at h
      exact hs err h

end MarvellVsp
